import Mathlib

/-!
# Client4: request execution, error normalisation and session state

A shallow embedding of `model/client4.go` (the v4 API client of the platform).

* Strings are Lean strings, Go `int` is `Int`, a Go pointer that may be nil is an `Option`.
* A nil-pointer dereference is a run-time panic in Go; the operations therefore return
  `Except Fault _`, with `Fault.nilDeref` standing for that panic.
* What lies outside the package is a parameter: the Go standard library and the network are an
  `Env`, the JSON encoders and decoders of the other model files are a `Codec`.
-/

namespace Model

/-! ## Constants declared in other files of the package -/

/-- Modelled from the spec: `API_URL_SUFFIX` is declared outside `client4.go`; section 6 gives the
requests as going to the base URL followed by `/api/v4`. -/
def API_URL_SUFFIX : String := "/api/v4"

/-- Modelled from the spec: `HEADER_BEARER` is declared outside `client4.go`; section 6 names the
default kind of the authorization header `Bearer`. -/
def HEADER_BEARER : String := "Bearer"

/-- Modelled from the spec: `HEADER_TOKEN` is declared outside `client4.go`; it is both the name of
the response header that carries the credential at login and the kind used for OAuth-style
tokens (section 4.3, step 3: a kind distinct from the bearer kind). -/
def HEADER_TOKEN : String := "token"

/-- Modelled from the spec: `HEADER_AUTH` is declared outside `client4.go`; the name of the
authorization header of section 6, which in HTTP is `Authorization`. -/
def HEADER_AUTH : String := "Authorization"

/-- Modelled from the spec: `HEADER_ETAG_CLIENT` is declared outside `client4.go`; the name of
the client-to-server etag header of section 6, which in HTTP is `If-None-Match`. -/
def HEADER_ETAG_CLIENT : String := "If-None-Match"

/-- Modelled from the spec: `HEADER_ETAG_SERVER` is declared outside `client4.go`; the name of
the server-to-client etag header of section 6, which in HTTP is `ETag`. -/
def HEADER_ETAG_SERVER : String := "ETag"

/-- Modelled from the spec: `HEADER_REQUEST_ID` is declared outside `client4.go`; the name of the
request-correlation header of section 6. -/
def HEADER_REQUEST_ID : String := "X-Request-ID"

/-- Modelled from the spec: `HEADER_VERSION_ID` is declared outside `client4.go`; the name of the
server-version header of section 6. -/
def HEADER_VERSION_ID : String := "X-Version-ID"

/-- Modelled from the spec: `STATUS` is declared outside `client4.go`; the key of the status entry
in the map a boolean operation receives. -/
def STATUS : String := "status"

/-- Modelled from the spec: `STATUS_OK` is declared outside `client4.go`; the value of the status
entry that means success. -/
def STATUS_OK : String := "OK"

/-! ## `net/http` headers -/

/-- The test `validHeaderFieldByte` of `net/textproto`: the token characters of RFC 7230. -/
def validHeaderFieldByte (c : Char) : Bool :=
  c.isAlphanum || "!#$%&*+-.^_|~".data.contains c || c = Char.ofNat 39 || c = Char.ofNat 96

/-- The loop of `canonicalMIMEHeaderKey`: upper case at the start and after each dash, lower case
elsewhere. -/
def canonicalLoop : Bool → List Char → List Char
  | _, [] => []
  | upper, c :: cs =>
    let d := if upper && c.isLower then c.toUpper
             else if !upper && c.isUpper then c.toLower else c
    d :: canonicalLoop (d = '-') cs

/-- The function `textproto.CanonicalMIMEHeaderKey`: a key that is not a token is left as it is. -/
def CanonicalMIMEHeaderKey (s : String) : String :=
  if s.data.all validHeaderFieldByte then String.mk (canonicalLoop true s.data) else s

/-- An `http.Header`, as the list of its (canonical key, value) entries in order. -/
abbrev Header := List (String × String)

/-- The method `Header.Get`: the first value stored under the key, or the empty string. -/
def Header.Get (h : Header) (key : String) : String :=
  match h.find? (fun p => p.1 = CanonicalMIMEHeaderKey key) with
  | some p => p.2
  | none => ""

/-- The method `Header.Set`: the entries of the key are replaced by the single given value. -/
def Header.Set (h : Header) (key value : String) : Header :=
  h.filter (fun p => p.1 ≠ CanonicalMIMEHeaderKey key) ++ [(CanonicalMIMEHeaderKey key, value)]

/-- All values a header carries under a key (the slice `h[key]` of Go). -/
def Header.Values (h : Header) (key : String) : List String :=
  (h.filter (fun p => p.1 = CanonicalMIMEHeaderKey key)).map Prod.snd

/-! ## The environment: Go standard library and network -/

/-- An operand of `fmt.Sprintf`; the client only passes strings and ints. -/
inductive Arg where
  | str (s : String)
  | int (n : Int)
  deriving DecidableEq, Repr

/-- An `http.Request` as far as the client sets it. -/
structure Request where
  Method : String
  URL : String
  Body : String
  Header : Header
  Close : Bool
  deriving DecidableEq, Repr

/-- An `http.Response` as far as the client reads it; `Body` is the whole content of the body
stream. -/
structure HttpResponse where
  StatusCode : Int
  Header : Header
  Body : String
  deriving DecidableEq, Repr

/-- What the client takes from outside the repository.
* `NewRequestOk method url`: whether `http.NewRequest` accepts the method and parses the URL
  (when it does not it returns a nil request);
* `Do`: the call `c.HttpClient.Do(rq)`, either the message of the error or the response;
* `fmtComplex format a argNum`: the output of `fmt` from a directive with flags, width,
  precision, argument index, or a verb other than the plain ones modelled in `printArg`, to the
  end of the format. -/
structure Env where
  NewRequestOk : String → String → Bool
  Do : Request → Except String HttpResponse
  fmtComplex : String → List Arg → Nat → String

/-! ## `fmt.Sprintf` -/

/-- The tail of `doPrintf`: operands left over are reported. -/
def extraArgs (a : List Arg) (argNum : Nat) : List Char :=
  match a.drop argNum with
  | [] => []
  | rest => ("%!(EXTRA " ++ ", ".intercalate (rest.map fun
      | .str s => "string=" ++ s
      | .int n => "int=" ++ toString n) ++ ")").data

/-- The plain cases of `printArg`: a string under `%v` or `%s`, an int under `%v` or `%d`. -/
def printArg : Arg → Char → Option String
  | .str s, verb => if verb = 'v' || verb = 's' then some s else none
  | .int n, verb => if verb = 'v' || verb = 'd' then some (toString n) else none

/-- Whether the character after `%` starts a flag, an argument index, a width or a precision. -/
def startsComplex (c : Char) : Bool :=
  "#0+- [*123456789.".data.contains c

/-- The loop of `doPrintf` over the characters of the format. -/
def doPrintf (E : Env) (a : List Arg) : List Char → Nat → List Char
  | [], argNum => extraArgs a argNum
  | c :: fmt, argNum =>
    if c = '%' then
      match fmt with
      | [] => "%!(NOVERB)".data ++ extraArgs a argNum
      | verb :: fmt1 =>
        if verb = '%' then '%' :: doPrintf E a fmt1 argNum
        else if startsComplex verb then (E.fmtComplex (String.mk (c :: fmt)) a argNum).data
        else match a.get? argNum with
          | none => ("%!" ++ String.singleton verb ++ "(MISSING)").data ++ doPrintf E a fmt1 argNum
          | some arg =>
            match printArg arg verb with
            | some s => s.data ++ doPrintf E a fmt1 (argNum + 1)
            | none => (E.fmtComplex (String.mk (c :: fmt)) a argNum).data
    else c :: doPrintf E a fmt argNum

/-- The function `fmt.Sprintf`. -/
def Sprintf (E : Env) (format : String) (a : List Arg) : String :=
  String.mk (doPrintf E a format.data 0)

/-! ## Routes -/

/-- Route of the users collection. -/
def GetUsersRoute (E : Env) : String :=
  Sprintf E "/users" []

/-- Route of one user. -/
def GetUserRoute (E : Env) (userId : String) : String :=
  Sprintf E (GetUsersRoute E ++ "/%v") [.str userId]

/-- Route of a user looked up by name. -/
def GetUserByUsernameRoute (E : Env) (userName : String) : String :=
  Sprintf E (GetUsersRoute E ++ "/username/%v") [.str userName]

/-- Route of a user looked up by email. -/
def GetUserByEmailRoute (E : Env) (email : String) : String :=
  Sprintf E (GetUsersRoute E ++ "/email/%v") [.str email]

/-- Route of the teams collection. -/
def GetTeamsRoute (E : Env) : String :=
  Sprintf E "/teams" []

/-- Route of one team. -/
def GetTeamRoute (E : Env) (teamId : String) : String :=
  Sprintf E (GetTeamsRoute E ++ "/%v") [.str teamId]

/-- Route of one member of a team. -/
def GetTeamMemberRoute (E : Env) (teamId userId : String) : String :=
  Sprintf E (GetTeamRoute E teamId ++ "/members/%v") [.str userId]

/-- Route of the channels collection. -/
def GetChannelsRoute (E : Env) : String :=
  Sprintf E "/channels" []

/-- Route of one channel. -/
def GetChannelRoute (E : Env) (channelId : String) : String :=
  Sprintf E (GetChannelsRoute E ++ "/%v") [.str channelId]

/-- Route of the members of a channel. -/
def GetChannelMembersRoute (E : Env) (channelId : String) : String :=
  Sprintf E (GetChannelRoute E channelId ++ "/members") []

/-- Route of one member of a channel. -/
def GetChannelMemberRoute (E : Env) (channelId userId : String) : String :=
  Sprintf E (GetChannelMembersRoute E channelId ++ "/%v") [.str userId]

/-- Route of the posts collection. -/
def GetPostsRoute (E : Env) : String :=
  Sprintf E "/posts" []

/-- Route of one post. -/
def GetPostRoute (E : Env) (postId : String) : String :=
  Sprintf E (GetPostsRoute E ++ "/%v") [.str postId]

/-! ## Errors, response metadata, client -/

/-- The panic of Go on a nil-pointer dereference. -/
inductive Fault where
  | nilDeref
  deriving DecidableEq, Repr

/-- Reading through a Go pointer. -/
def deref {α : Type} : Option α → Except Fault α
  | some a => .ok a
  | none => .error .nilDeref

/-- Modelled from the spec: the struct `AppError` is declared outside `client4.go`; section 3 gives
a structured error an identifier, a human-readable message, a detail string and its origin. -/
structure AppError where
  Id : String
  Message : String
  DetailedError : String
  Where : String
  deriving DecidableEq, Repr

/-- Modelled from the spec: `NewLocAppError(where, id, params, details)` is declared outside
`client4.go`; the error it builds has the given identifier, detail string and origin
(sections 3 and 4.3), and its message is the identifier, not yet translated. The translation
parameters, nil at the one call of this file, are left out. -/
def NewLocAppError (origin id details : String) : AppError :=
  { Id := id, Message := id, DetailedError := details, Where := origin }

/-- The struct `Response`: the metadata of one call. A field left out of a literal has the zero
value of Go. -/
structure Response where
  StatusCode : Int := 0
  Error : Option AppError := none
  RequestId : String := ""
  Etag : String := ""
  ServerVersion : String := ""
  deriving DecidableEq, Repr

/-- The struct `Client4`. Its field `HttpClient` is the transport `Env.Do`. -/
structure Client4 where
  Url : String
  ApiUrl : String
  AuthToken : String
  AuthType : String
  deriving DecidableEq, Repr

/-- The JSON encoders and decoders of the domain objects, which are declared in other files of
the package. A decoder returns a pointer (nil when the body does not decode), except
`AppErrorFromJson`.

Modelled from the spec: `AppErrorFromJson` always yields a structured error (sections 4.3 and 7:
a body with status 300 or more is decoded as a StructuredError, which always carries an
identifier), so its result is not optional. -/
structure Codec where
  User : Type
  Team : Type
  TeamMember : Type
  Channel : Type
  ChannelMember : Type
  ChannelMembers : Type
  Post : Type
  PostList : Type
  UserId : User → String
  UserToJson : User → String
  TeamToJson : Team → String
  ChannelToJson : Channel → String
  PostToJson : Post → String
  MapToJson : List (String × String) → String
  ArrayToJson : List String → String
  UserFromJson : String → Option User
  UserListFromJson : String → Option (List (Option User))
  TeamFromJson : String → Option Team
  TeamListFromJson : String → Option (List (Option Team))
  TeamMemberFromJson : String → Option TeamMember
  ChannelFromJson : String → Option Channel
  ChannelMemberFromJson : String → Option ChannelMember
  ChannelMembersFromJson : String → Option ChannelMembers
  PostFromJson : String → Option Post
  PostListFromJson : String → Option PostList
  MapFromJson : String → Option (List (String × String))
  AppErrorFromJson : String → AppError

/-- The constructor `NewAPIv4Client`. -/
def NewAPIv4Client (url : String) : Client4 :=
  { Url := url, ApiUrl := url ++ API_URL_SUFFIX, AuthToken := "", AuthType := "" }

/-- The function `BuildResponse`. -/
def BuildResponse (r : HttpResponse) : Response :=
  { StatusCode := r.StatusCode,
    RequestId := r.Header.Get HEADER_REQUEST_ID,
    Etag := r.Header.Get HEADER_ETAG_SERVER,
    ServerVersion := r.Header.Get HEADER_VERSION_ID }

/-- The method `SetOAuthToken`. -/
def SetOAuthToken (c : Client4) (token : String) : Client4 :=
  { c with AuthToken := token, AuthType := HEADER_TOKEN }

/-- The method `ClearOAuthToken`. -/
def ClearOAuthToken (c : Client4) : Client4 :=
  { c with AuthToken := "", AuthType := HEADER_BEARER }

/-! ## The request executor -/

/-- Lines 120 to 129 of `DoApiRequest`: the request handed to the transport. `http.NewRequest`
starts from an empty header and reads an empty method as GET; when it rejects the method or the
URL the request is nil, its error is dropped, and the assignment `rq.Close = true` panics. -/
def buildRequest (E : Env) (c : Client4) (method url data etag : String) : Except Fault Request :=
  if E.NewRequestOk method (c.ApiUrl ++ url) then
    let rq : Request :=
      { Method := if method = "" then "GET" else method, URL := c.ApiUrl ++ url, Body := data,
        Header := [], Close := false }
    let rq := { rq with Close := true }
    let rq := if etag.length > 0 then { rq with Header := rq.Header.Set HEADER_ETAG_CLIENT etag }
              else rq
    let rq := if c.AuthToken.length > 0 then
                { rq with Header := rq.Header.Set HEADER_AUTH (c.AuthType ++ " " ++ c.AuthToken) }
              else rq
    .ok rq
  else .error .nilDeref

/-- The method `DoApiRequest`: the response (nil on a transport failure) and the error. -/
def DoApiRequest (E : Env) (J : Codec) (c : Client4) (method url data etag : String) :
    Except Fault (Option HttpResponse × Option AppError) :=
  match buildRequest E c method url data etag with
  | .error f => .error f
  | .ok rq =>
    match E.Do rq with
    | .error err => .ok (none, some (NewLocAppError url "model.client.connecting.app_error" err))
    | .ok rp =>
      if rp.StatusCode = 304 then .ok (some rp, none)
      else if rp.StatusCode ≥ 300 then .ok (some rp, some (J.AppErrorFromJson rp.Body))
      else .ok (some rp, none)

/-- The method `DoApiGet`. -/
def DoApiGet (E : Env) (J : Codec) (c : Client4) (url etag : String) :
    Except Fault (Option HttpResponse × Option AppError) :=
  DoApiRequest E J c "GET" url "" etag

/-- The method `DoApiPost`. -/
def DoApiPost (E : Env) (J : Codec) (c : Client4) (url data : String) :
    Except Fault (Option HttpResponse × Option AppError) :=
  DoApiRequest E J c "POST" url data ""

/-- The method `DoApiPut`. -/
def DoApiPut (E : Env) (J : Codec) (c : Client4) (url data : String) :
    Except Fault (Option HttpResponse × Option AppError) :=
  DoApiRequest E J c "PUT" url data ""

/-- The method `DoApiDelete`; its argument `data` is not sent. -/
def DoApiDelete (E : Env) (J : Codec) (c : Client4) (url _data : String) :
    Except Fault (Option HttpResponse × Option AppError) :=
  DoApiRequest E J c "DELETE" url "" ""

/-- The function `CheckStatusOK`. -/
def CheckStatusOK (J : Codec) (r : HttpResponse) : Bool :=
  match J.MapFromJson r.Body with
  | some m => (m.lookup STATUS).getD "" = STATUS_OK
  | none => false

/-! ## Authentication -/

/-- The method `login`: the result of the call and the client after it. On the error branch
`r.StatusCode` is read through the response pointer, which is nil after a transport failure. -/
def login (E : Env) (J : Codec) (c : Client4) (m : List (String × String)) :
    Except Fault (Option J.User × Response) × Client4 :=
  match DoApiPost E J c "/users/login" (J.MapToJson m) with
  | .error f => (.error f, c)
  | .ok (r, some err) =>
    ((deref r).map fun r => (none, { StatusCode := r.StatusCode, Error := some err }), c)
  | .ok (none, none) => (.error .nilDeref, c)
  | .ok (some r, none) =>
    (.ok (J.UserFromJson r.Body, BuildResponse r),
      { c with AuthToken := r.Header.Get HEADER_TOKEN, AuthType := HEADER_BEARER })

/-- The method `LoginById`. -/
def LoginById (E : Env) (J : Codec) (c : Client4) (id password : String) :
    Except Fault (Option J.User × Response) × Client4 :=
  login E J c [("id", id), ("password", password)]

/-- The method `Login`. -/
def Login (E : Env) (J : Codec) (c : Client4) (loginId password : String) :
    Except Fault (Option J.User × Response) × Client4 :=
  login E J c [("login_id", loginId), ("password", password)]

/-- The method `LoginByLdap`. -/
def LoginByLdap (E : Env) (J : Codec) (c : Client4) (loginId password : String) :
    Except Fault (Option J.User × Response) × Client4 :=
  login E J c [("login_id", loginId), ("password", password), ("ldap_only", "true")]

/-- The method `LoginWithDevice`. -/
def LoginWithDevice (E : Env) (J : Codec) (c : Client4) (loginId password deviceId : String) :
    Except Fault (Option J.User × Response) × Client4 :=
  login E J c [("login_id", loginId), ("password", password), ("device_id", deviceId)]

/-- The method `Logout`: the result of the call and the client after it. -/
def Logout (E : Env) (J : Codec) (c : Client4) : Except Fault (Bool × Response) × Client4 :=
  match DoApiPost E J c "/users/logout" "" with
  | .error f => (.error f, c)
  | .ok (r, some err) =>
    ((deref r).map fun r => (false, { StatusCode := r.StatusCode, Error := some err }), c)
  | .ok (none, none) => (.error .nilDeref, { c with AuthToken := "", AuthType := HEADER_BEARER })
  | .ok (some r, none) =>
    (.ok (CheckStatusOK J r, BuildResponse r),
      { c with AuthToken := "", AuthType := HEADER_BEARER })

/-! ## Users -/

/-- The method `CreateUser`; the user pointer is taken non-nil. -/
def CreateUser (E : Env) (J : Codec) (c : Client4) (user : J.User) :
    Except Fault (Option J.User × Response) :=
  match DoApiPost E J c (GetUsersRoute E) (J.UserToJson user) with
  | .error f => .error f
  | .ok (r, some err) =>
    (deref r).map fun r => (none, { StatusCode := r.StatusCode, Error := some err })
  | .ok (r, none) =>
    (deref r).map fun r => (J.UserFromJson r.Body, BuildResponse r)

/-- The method `GetUser`. -/
def GetUser (E : Env) (J : Codec) (c : Client4) (userId etag : String) :
    Except Fault (Option J.User × Response) :=
  match DoApiGet E J c (GetUserRoute E userId) etag with
  | .error f => .error f
  | .ok (r, some err) =>
    (deref r).map fun r => (none, { StatusCode := r.StatusCode, Error := some err })
  | .ok (r, none) =>
    (deref r).map fun r => (J.UserFromJson r.Body, BuildResponse r)

/-- The method `GetUserByUsername`. -/
def GetUserByUsername (E : Env) (J : Codec) (c : Client4) (userName etag : String) :
    Except Fault (Option J.User × Response) :=
  match DoApiGet E J c (GetUserByUsernameRoute E userName) etag with
  | .error f => .error f
  | .ok (r, some err) =>
    (deref r).map fun r => (none, { StatusCode := r.StatusCode, Error := some err })
  | .ok (r, none) =>
    (deref r).map fun r => (J.UserFromJson r.Body, BuildResponse r)

/-- The method `GetUserByEmail`. -/
def GetUserByEmail (E : Env) (J : Codec) (c : Client4) (email etag : String) :
    Except Fault (Option J.User × Response) :=
  match DoApiGet E J c (GetUserByEmailRoute E email) etag with
  | .error f => .error f
  | .ok (r, some err) =>
    (deref r).map fun r => (none, { StatusCode := r.StatusCode, Error := some err })
  | .ok (r, none) =>
    (deref r).map fun r => (J.UserFromJson r.Body, BuildResponse r)

/-- The method `GetUsers`. -/
def GetUsers (E : Env) (J : Codec) (c : Client4) (page perPage : Int) (etag : String) :
    Except Fault (Option (List (Option J.User)) × Response) :=
  match DoApiGet E J c (GetUsersRoute E ++ Sprintf E "?page=%v&per_page=%v" [.int page, .int perPage]) etag with
  | .error f => .error f
  | .ok (r, some err) =>
    (deref r).map fun r => (none, { StatusCode := r.StatusCode, Error := some err })
  | .ok (r, none) =>
    (deref r).map fun r => (J.UserListFromJson r.Body, BuildResponse r)

/-- The method `GetUsersInTeam`. -/
def GetUsersInTeam (E : Env) (J : Codec) (c : Client4) (teamId : String) (page perPage : Int) (etag : String) :
    Except Fault (Option (List (Option J.User)) × Response) :=
  match DoApiGet E J c (GetUsersRoute E ++
      Sprintf E "?in_team=%v&page=%v&per_page=%v" [.str teamId, .int page, .int perPage]) etag with
  | .error f => .error f
  | .ok (r, some err) =>
    (deref r).map fun r => (none, { StatusCode := r.StatusCode, Error := some err })
  | .ok (r, none) =>
    (deref r).map fun r => (J.UserListFromJson r.Body, BuildResponse r)

/-- The method `GetUsersInChannel`. -/
def GetUsersInChannel (E : Env) (J : Codec) (c : Client4) (channelId : String) (page perPage : Int) (etag : String) :
    Except Fault (Option (List (Option J.User)) × Response) :=
  match DoApiGet E J c (GetUsersRoute E ++
      Sprintf E "?in_channel=%v&page=%v&per_page=%v" [.str channelId, .int page, .int perPage]) etag with
  | .error f => .error f
  | .ok (r, some err) =>
    (deref r).map fun r => (none, { StatusCode := r.StatusCode, Error := some err })
  | .ok (r, none) =>
    (deref r).map fun r => (J.UserListFromJson r.Body, BuildResponse r)

/-- The method `GetUsersNotInChannel`. -/
def GetUsersNotInChannel (E : Env) (J : Codec) (c : Client4) (teamId channelId : String) (page perPage : Int) (etag : String) :
    Except Fault (Option (List (Option J.User)) × Response) :=
  match DoApiGet E J c (GetUsersRoute E ++
      Sprintf E "?in_team=%v&not_in_channel=%v&page=%v&per_page=%v"
        [.str teamId, .str channelId, .int page, .int perPage]) etag with
  | .error f => .error f
  | .ok (r, some err) =>
    (deref r).map fun r => (none, { StatusCode := r.StatusCode, Error := some err })
  | .ok (r, none) =>
    (deref r).map fun r => (J.UserListFromJson r.Body, BuildResponse r)

/-- The method `GetUsersByIds`. -/
def GetUsersByIds (E : Env) (J : Codec) (c : Client4) (userIds : List String) :
    Except Fault (Option (List (Option J.User)) × Response) :=
  match DoApiPost E J c (GetUsersRoute E ++ "/ids") (J.ArrayToJson userIds) with
  | .error f => .error f
  | .ok (r, some err) =>
    (deref r).map fun r => (none, { StatusCode := r.StatusCode, Error := some err })
  | .ok (r, none) =>
    (deref r).map fun r => (J.UserListFromJson r.Body, BuildResponse r)

/-- The method `UpdateUser`; the user pointer is taken non-nil. -/
def UpdateUser (E : Env) (J : Codec) (c : Client4) (user : J.User) :
    Except Fault (Option J.User × Response) :=
  match DoApiPut E J c (GetUserRoute E (J.UserId user)) (J.UserToJson user) with
  | .error f => .error f
  | .ok (r, some err) =>
    (deref r).map fun r => (none, { StatusCode := r.StatusCode, Error := some err })
  | .ok (r, none) =>
    (deref r).map fun r => (J.UserFromJson r.Body, BuildResponse r)

/-- The method `UpdateUserPassword`. -/
def UpdateUserPassword (E : Env) (J : Codec) (c : Client4) (userId currentPassword newPassword : String) :
    Except Fault (Bool × Response) :=
  match DoApiPut E J c (GetUserRoute E userId ++ "/password")
      (J.MapToJson [("current_password", currentPassword), ("new_password", newPassword)]) with
  | .error f => .error f
  | .ok (r, some err) =>
    (deref r).map fun r => (false, { StatusCode := r.StatusCode, Error := some err })
  | .ok (r, none) =>
    (deref r).map fun r => (CheckStatusOK J r, BuildResponse r)

/-- The method `UpdateUserRoles`. -/
def UpdateUserRoles (E : Env) (J : Codec) (c : Client4) (userId roles : String) :
    Except Fault (Bool × Response) :=
  match DoApiPut E J c (GetUserRoute E userId ++ "/roles") (J.MapToJson [("roles", roles)]) with
  | .error f => .error f
  | .ok (r, some err) =>
    (deref r).map fun r => (false, { StatusCode := r.StatusCode, Error := some err })
  | .ok (r, none) =>
    (deref r).map fun r => (CheckStatusOK J r, BuildResponse r)

/-- The method `DeleteUser`. -/
def DeleteUser (E : Env) (J : Codec) (c : Client4) (userId : String) :
    Except Fault (Bool × Response) :=
  match DoApiDelete E J c (GetUserRoute E userId) "" with
  | .error f => .error f
  | .ok (r, some err) =>
    (deref r).map fun r => (false, { StatusCode := r.StatusCode, Error := some err })
  | .ok (r, none) =>
    (deref r).map fun r => (CheckStatusOK J r, BuildResponse r)

/-- The method `SendPasswordResetEmail`. -/
def SendPasswordResetEmail (E : Env) (J : Codec) (c : Client4) (email : String) :
    Except Fault (Bool × Response) :=
  match DoApiPost E J c (GetUsersRoute E ++ "/password/reset/send")
      (J.MapToJson [("email", email)]) with
  | .error f => .error f
  | .ok (r, some err) =>
    (deref r).map fun r => (false, { StatusCode := r.StatusCode, Error := some err })
  | .ok (r, none) =>
    (deref r).map fun r => (CheckStatusOK J r, BuildResponse r)

/-- The method `ResetPassword`. -/
def ResetPassword (E : Env) (J : Codec) (c : Client4) (code newPassword : String) :
    Except Fault (Bool × Response) :=
  match DoApiPost E J c (GetUsersRoute E ++ "/password/reset")
      (J.MapToJson [("code", code), ("new_password", newPassword)]) with
  | .error f => .error f
  | .ok (r, some err) =>
    (deref r).map fun r => (false, { StatusCode := r.StatusCode, Error := some err })
  | .ok (r, none) =>
    (deref r).map fun r => (CheckStatusOK J r, BuildResponse r)

/-! ## Teams -/

/-- The method `CreateTeam`; the team pointer is taken non-nil. -/
def CreateTeam (E : Env) (J : Codec) (c : Client4) (team : J.Team) :
    Except Fault (Option J.Team × Response) :=
  match DoApiPost E J c (GetTeamsRoute E) (J.TeamToJson team) with
  | .error f => .error f
  | .ok (r, some err) =>
    (deref r).map fun r => (none, { StatusCode := r.StatusCode, Error := some err })
  | .ok (r, none) =>
    (deref r).map fun r => (J.TeamFromJson r.Body, BuildResponse r)

/-- The method `GetTeam`. -/
def GetTeam (E : Env) (J : Codec) (c : Client4) (teamId etag : String) :
    Except Fault (Option J.Team × Response) :=
  match DoApiGet E J c (GetTeamRoute E teamId) etag with
  | .error f => .error f
  | .ok (r, some err) =>
    (deref r).map fun r => (none, { StatusCode := r.StatusCode, Error := some err })
  | .ok (r, none) =>
    (deref r).map fun r => (J.TeamFromJson r.Body, BuildResponse r)

/-- The method `GetTeamsForUser`. -/
def GetTeamsForUser (E : Env) (J : Codec) (c : Client4) (userId etag : String) :
    Except Fault (Option (List (Option J.Team)) × Response) :=
  match DoApiGet E J c (GetUserRoute E userId ++ "/teams") etag with
  | .error f => .error f
  | .ok (r, some err) =>
    (deref r).map fun r => (none, { StatusCode := r.StatusCode, Error := some err })
  | .ok (r, none) =>
    (deref r).map fun r => (J.TeamListFromJson r.Body, BuildResponse r)

/-- The method `GetTeamMember`. -/
def GetTeamMember (E : Env) (J : Codec) (c : Client4) (teamId userId etag : String) :
    Except Fault (Option J.TeamMember × Response) :=
  match DoApiGet E J c (GetTeamMemberRoute E teamId userId) etag with
  | .error f => .error f
  | .ok (r, some err) =>
    (deref r).map fun r => (none, { StatusCode := r.StatusCode, Error := some err })
  | .ok (r, none) =>
    (deref r).map fun r => (J.TeamMemberFromJson r.Body, BuildResponse r)

/-! ## Channels -/

/-- The method `CreateChannel`; the channel pointer is taken non-nil. -/
def CreateChannel (E : Env) (J : Codec) (c : Client4) (channel : J.Channel) :
    Except Fault (Option J.Channel × Response) :=
  match DoApiPost E J c (GetChannelsRoute E) (J.ChannelToJson channel) with
  | .error f => .error f
  | .ok (r, some err) =>
    (deref r).map fun r => (none, { StatusCode := r.StatusCode, Error := some err })
  | .ok (r, none) =>
    (deref r).map fun r => (J.ChannelFromJson r.Body, BuildResponse r)

/-- The method `CreateDirectChannel`. -/
def CreateDirectChannel (E : Env) (J : Codec) (c : Client4) (userId1 userId2 : String) :
    Except Fault (Option J.Channel × Response) :=
  match DoApiPost E J c (GetChannelsRoute E ++ "/direct") (J.ArrayToJson [userId1, userId2]) with
  | .error f => .error f
  | .ok (r, some err) =>
    (deref r).map fun r => (none, { StatusCode := r.StatusCode, Error := some err })
  | .ok (r, none) =>
    (deref r).map fun r => (J.ChannelFromJson r.Body, BuildResponse r)

/-- The method `GetChannelMembers`. -/
def GetChannelMembers (E : Env) (J : Codec) (c : Client4) (channelId : String) (page perPage : Int) (etag : String) :
    Except Fault (Option J.ChannelMembers × Response) :=
  match DoApiGet E J c (GetChannelMembersRoute E channelId ++
      Sprintf E "?page=%v&per_page=%v" [.int page, .int perPage]) etag with
  | .error f => .error f
  | .ok (r, some err) =>
    (deref r).map fun r => (none, { StatusCode := r.StatusCode, Error := some err })
  | .ok (r, none) =>
    (deref r).map fun r => (J.ChannelMembersFromJson r.Body, BuildResponse r)

/-- The method `GetChannelMember`. -/
def GetChannelMember (E : Env) (J : Codec) (c : Client4) (channelId userId etag : String) :
    Except Fault (Option J.ChannelMember × Response) :=
  match DoApiGet E J c (GetChannelMemberRoute E channelId userId) etag with
  | .error f => .error f
  | .ok (r, some err) =>
    (deref r).map fun r => (none, { StatusCode := r.StatusCode, Error := some err })
  | .ok (r, none) =>
    (deref r).map fun r => (J.ChannelMemberFromJson r.Body, BuildResponse r)

/-- The method `GetChannelMembersForUser`. -/
def GetChannelMembersForUser (E : Env) (J : Codec) (c : Client4) (userId teamId etag : String) :
    Except Fault (Option J.ChannelMembers × Response) :=
  match DoApiGet E J c
      (Sprintf E (GetUserRoute E userId ++ "/teams/%v/channels/members") [.str teamId]) etag with
  | .error f => .error f
  | .ok (r, some err) =>
    (deref r).map fun r => (none, { StatusCode := r.StatusCode, Error := some err })
  | .ok (r, none) =>
    (deref r).map fun r => (J.ChannelMembersFromJson r.Body, BuildResponse r)

/-! ## Posts -/

/-- The method `CreatePost`; the post pointer is taken non-nil. -/
def CreatePost (E : Env) (J : Codec) (c : Client4) (post : J.Post) :
    Except Fault (Option J.Post × Response) :=
  match DoApiPost E J c (GetPostsRoute E) (J.PostToJson post) with
  | .error f => .error f
  | .ok (r, some err) =>
    (deref r).map fun r => (none, { StatusCode := r.StatusCode, Error := some err })
  | .ok (r, none) =>
    (deref r).map fun r => (J.PostFromJson r.Body, BuildResponse r)

/-- The method `GetPost`. -/
def GetPost (E : Env) (J : Codec) (c : Client4) (postId etag : String) :
    Except Fault (Option J.Post × Response) :=
  match DoApiGet E J c (GetPostRoute E postId) etag with
  | .error f => .error f
  | .ok (r, some err) =>
    (deref r).map fun r => (none, { StatusCode := r.StatusCode, Error := some err })
  | .ok (r, none) =>
    (deref r).map fun r => (J.PostFromJson r.Body, BuildResponse r)

/-- The method `GetPostThread`. -/
def GetPostThread (E : Env) (J : Codec) (c : Client4) (postId etag : String) :
    Except Fault (Option J.PostList × Response) :=
  match DoApiGet E J c (GetPostRoute E postId ++ "/thread") etag with
  | .error f => .error f
  | .ok (r, some err) =>
    (deref r).map fun r => (none, { StatusCode := r.StatusCode, Error := some err })
  | .ok (r, none) =>
    (deref r).map fun r => (J.PostListFromJson r.Body, BuildResponse r)

/-- The method `GetPostsForChannel`. -/
def GetPostsForChannel (E : Env) (J : Codec) (c : Client4) (channelId : String) (page perPage : Int) (etag : String) :
    Except Fault (Option J.PostList × Response) :=
  match DoApiGet E J c (GetChannelRoute E channelId ++ "/posts" ++
      Sprintf E "?page=%v&per_page=%v" [.int page, .int perPage]) etag with
  | .error f => .error f
  | .ok (r, some err) =>
    (deref r).map fun r => (none, { StatusCode := r.StatusCode, Error := some err })
  | .ok (r, none) =>
    (deref r).map fun r => (J.PostListFromJson r.Body, BuildResponse r)

/-! ## The operations as one family -/

/-- A domain result of an operation: a pointer, a slice or a boolean. -/
inductive Value (J : Codec) where
  | user (u : Option J.User)
  | users (us : Option (List (Option J.User)))
  | flag (b : Bool)
  | team (t : Option J.Team)
  | teams (ts : Option (List (Option J.Team)))
  | teamMember (m : Option J.TeamMember)
  | channel (ch : Option J.Channel)
  | channelMember (m : Option J.ChannelMember)
  | channelMembers (ms : Option J.ChannelMembers)
  | post (p : Option J.Post)
  | postList (ps : Option J.PostList)

/-- Whether a domain result is the zero value of its Go type: nil, or false. -/
def Value.isZero {J : Codec} : Value J → Bool
  | .user u => u.isNone
  | .users us => us.isNone
  | .flag b => !b
  | .team t => t.isNone
  | .teams ts => ts.isNone
  | .teamMember m => m.isNone
  | .channel ch => ch.isNone
  | .channelMember m => m.isNone
  | .channelMembers ms => ms.isNone
  | .post p => p.isNone
  | .postList ps => ps.isNone

/-- A call of one of the resource operations of the client, with its arguments. -/
inductive Op (J : Codec) where
  | loginById (id password : String)
  | login (loginId password : String)
  | loginByLdap (loginId password : String)
  | loginWithDevice (loginId password deviceId : String)
  | logout
  | createUser (user : J.User)
  | getUser (userId etag : String)
  | getUserByUsername (userName etag : String)
  | getUserByEmail (email etag : String)
  | getUsers (page perPage : Int) (etag : String)
  | getUsersInTeam (teamId : String) (page perPage : Int) (etag : String)
  | getUsersInChannel (channelId : String) (page perPage : Int) (etag : String)
  | getUsersNotInChannel (teamId channelId : String) (page perPage : Int) (etag : String)
  | getUsersByIds (userIds : List String)
  | updateUser (user : J.User)
  | updateUserPassword (userId currentPassword newPassword : String)
  | updateUserRoles (userId roles : String)
  | deleteUser (userId : String)
  | sendPasswordResetEmail (email : String)
  | resetPassword (code newPassword : String)
  | createTeam (team : J.Team)
  | getTeam (teamId etag : String)
  | getTeamsForUser (userId etag : String)
  | getTeamMember (teamId userId etag : String)
  | createChannel (channel : J.Channel)
  | createDirectChannel (userId1 userId2 : String)
  | getChannelMembers (channelId : String) (page perPage : Int) (etag : String)
  | getChannelMember (channelId userId etag : String)
  | getChannelMembersForUser (userId teamId etag : String)
  | createPost (post : J.Post)
  | getPost (postId etag : String)
  | getPostThread (postId etag : String)
  | getPostsForChannel (channelId : String) (page perPage : Int) (etag : String)

/-- Whether the operation is one of the four logins. -/
def Op.isLogin {J : Codec} : Op J → Bool
  | .loginById _ _ => true
  | .login _ _ => true
  | .loginByLdap _ _ => true
  | .loginWithDevice _ _ _ => true
  | _ => false

/-- Whether the operation is `Logout`. -/
def Op.isLogout {J : Codec} : Op J → Bool
  | .logout => true
  | _ => false

/-- Running an operation: its result, or the panic, and the client after it. An operation other
than the logins and `Logout` assigns to no field of the client. -/
def Op.run {J : Codec} (E : Env) (c : Client4) : Op J → Except Fault (Value J × Response) × Client4
  | .loginById id password =>
    ((LoginById E J c id password).1.map fun x => (.user x.1, x.2), (LoginById E J c id password).2)
  | .login loginId password =>
    ((Login E J c loginId password).1.map fun x => (.user x.1, x.2), (Login E J c loginId password).2)
  | .loginByLdap loginId password =>
    ((LoginByLdap E J c loginId password).1.map fun x => (.user x.1, x.2), (LoginByLdap E J c loginId password).2)
  | .loginWithDevice loginId password deviceId =>
    ((LoginWithDevice E J c loginId password deviceId).1.map fun x => (.user x.1, x.2), (LoginWithDevice E J c loginId password deviceId).2)
  | .logout =>
    ((Logout E J c).1.map fun x => (.flag x.1, x.2), (Logout E J c).2)
  | .createUser user =>
    ((CreateUser E J c user).map fun x => (.user x.1, x.2), c)
  | .getUser userId etag =>
    ((GetUser E J c userId etag).map fun x => (.user x.1, x.2), c)
  | .getUserByUsername userName etag =>
    ((GetUserByUsername E J c userName etag).map fun x => (.user x.1, x.2), c)
  | .getUserByEmail email etag =>
    ((GetUserByEmail E J c email etag).map fun x => (.user x.1, x.2), c)
  | .getUsers page perPage etag =>
    ((GetUsers E J c page perPage etag).map fun x => (.users x.1, x.2), c)
  | .getUsersInTeam teamId page perPage etag =>
    ((GetUsersInTeam E J c teamId page perPage etag).map fun x => (.users x.1, x.2), c)
  | .getUsersInChannel channelId page perPage etag =>
    ((GetUsersInChannel E J c channelId page perPage etag).map fun x => (.users x.1, x.2), c)
  | .getUsersNotInChannel teamId channelId page perPage etag =>
    ((GetUsersNotInChannel E J c teamId channelId page perPage etag).map fun x => (.users x.1, x.2), c)
  | .getUsersByIds userIds =>
    ((GetUsersByIds E J c userIds).map fun x => (.users x.1, x.2), c)
  | .updateUser user =>
    ((UpdateUser E J c user).map fun x => (.user x.1, x.2), c)
  | .updateUserPassword userId currentPassword newPassword =>
    ((UpdateUserPassword E J c userId currentPassword newPassword).map fun x => (.flag x.1, x.2), c)
  | .updateUserRoles userId roles =>
    ((UpdateUserRoles E J c userId roles).map fun x => (.flag x.1, x.2), c)
  | .deleteUser userId =>
    ((DeleteUser E J c userId).map fun x => (.flag x.1, x.2), c)
  | .sendPasswordResetEmail email =>
    ((SendPasswordResetEmail E J c email).map fun x => (.flag x.1, x.2), c)
  | .resetPassword code newPassword =>
    ((ResetPassword E J c code newPassword).map fun x => (.flag x.1, x.2), c)
  | .createTeam team =>
    ((CreateTeam E J c team).map fun x => (.team x.1, x.2), c)
  | .getTeam teamId etag =>
    ((GetTeam E J c teamId etag).map fun x => (.team x.1, x.2), c)
  | .getTeamsForUser userId etag =>
    ((GetTeamsForUser E J c userId etag).map fun x => (.teams x.1, x.2), c)
  | .getTeamMember teamId userId etag =>
    ((GetTeamMember E J c teamId userId etag).map fun x => (.teamMember x.1, x.2), c)
  | .createChannel channel =>
    ((CreateChannel E J c channel).map fun x => (.channel x.1, x.2), c)
  | .createDirectChannel userId1 userId2 =>
    ((CreateDirectChannel E J c userId1 userId2).map fun x => (.channel x.1, x.2), c)
  | .getChannelMembers channelId page perPage etag =>
    ((GetChannelMembers E J c channelId page perPage etag).map fun x => (.channelMembers x.1, x.2), c)
  | .getChannelMember channelId userId etag =>
    ((GetChannelMember E J c channelId userId etag).map fun x => (.channelMember x.1, x.2), c)
  | .getChannelMembersForUser userId teamId etag =>
    ((GetChannelMembersForUser E J c userId teamId etag).map fun x => (.channelMembers x.1, x.2), c)
  | .createPost post =>
    ((CreatePost E J c post).map fun x => (.post x.1, x.2), c)
  | .getPost postId etag =>
    ((GetPost E J c postId etag).map fun x => (.post x.1, x.2), c)
  | .getPostThread postId etag =>
    ((GetPostThread E J c postId etag).map fun x => (.postList x.1, x.2), c)
  | .getPostsForChannel channelId page perPage etag =>
    ((GetPostsForChannel E J c channelId page perPage etag).map fun x => (.postList x.1, x.2), c)

/-- The HTTP method of the request of an operation. -/
def Op.method {J : Codec} : Op J → String
  | .loginById _ _ => "POST"
  | .login _ _ => "POST"
  | .loginByLdap _ _ => "POST"
  | .loginWithDevice _ _ _ => "POST"
  | .logout => "POST"
  | .createUser _ => "POST"
  | .getUser _ _ => "GET"
  | .getUserByUsername _ _ => "GET"
  | .getUserByEmail _ _ => "GET"
  | .getUsers _ _ _ => "GET"
  | .getUsersInTeam _ _ _ _ => "GET"
  | .getUsersInChannel _ _ _ _ => "GET"
  | .getUsersNotInChannel _ _ _ _ _ => "GET"
  | .getUsersByIds _ => "POST"
  | .updateUser _ => "PUT"
  | .updateUserPassword _ _ _ => "PUT"
  | .updateUserRoles _ _ => "PUT"
  | .deleteUser _ => "DELETE"
  | .sendPasswordResetEmail _ => "POST"
  | .resetPassword _ _ => "POST"
  | .createTeam _ => "POST"
  | .getTeam _ _ => "GET"
  | .getTeamsForUser _ _ => "GET"
  | .getTeamMember _ _ _ => "GET"
  | .createChannel _ => "POST"
  | .createDirectChannel _ _ => "POST"
  | .getChannelMembers _ _ _ _ => "GET"
  | .getChannelMember _ _ _ => "GET"
  | .getChannelMembersForUser _ _ _ => "GET"
  | .createPost _ => "POST"
  | .getPost _ _ => "GET"
  | .getPostThread _ _ => "GET"
  | .getPostsForChannel _ _ _ _ => "GET"

/-- The route, with its query, of the request of an operation. -/
def Op.url {J : Codec} (E : Env) : Op J → String
  | .loginById _ _ => "/users/login"
  | .login _ _ => "/users/login"
  | .loginByLdap _ _ => "/users/login"
  | .loginWithDevice _ _ _ => "/users/login"
  | .logout => "/users/logout"
  | .createUser _ => GetUsersRoute E
  | .getUser userId _ => GetUserRoute E userId
  | .getUserByUsername userName _ => GetUserByUsernameRoute E userName
  | .getUserByEmail email _ => GetUserByEmailRoute E email
  | .getUsers page perPage _ => GetUsersRoute E ++ Sprintf E "?page=%v&per_page=%v" [.int page, .int perPage]
  | .getUsersInTeam teamId page perPage _ => GetUsersRoute E ++
      Sprintf E "?in_team=%v&page=%v&per_page=%v" [.str teamId, .int page, .int perPage]
  | .getUsersInChannel channelId page perPage _ => GetUsersRoute E ++
      Sprintf E "?in_channel=%v&page=%v&per_page=%v" [.str channelId, .int page, .int perPage]
  | .getUsersNotInChannel teamId channelId page perPage _ => GetUsersRoute E ++
      Sprintf E "?in_team=%v&not_in_channel=%v&page=%v&per_page=%v"
        [.str teamId, .str channelId, .int page, .int perPage]
  | .getUsersByIds _ => GetUsersRoute E ++ "/ids"
  | .updateUser user => GetUserRoute E (J.UserId user)
  | .updateUserPassword userId _ _ => GetUserRoute E userId ++ "/password"
  | .updateUserRoles userId _ => GetUserRoute E userId ++ "/roles"
  | .deleteUser userId => GetUserRoute E userId
  | .sendPasswordResetEmail _ => GetUsersRoute E ++ "/password/reset/send"
  | .resetPassword _ _ => GetUsersRoute E ++ "/password/reset"
  | .createTeam _ => GetTeamsRoute E
  | .getTeam teamId _ => GetTeamRoute E teamId
  | .getTeamsForUser userId _ => GetUserRoute E userId ++ "/teams"
  | .getTeamMember teamId userId _ => GetTeamMemberRoute E teamId userId
  | .createChannel _ => GetChannelsRoute E
  | .createDirectChannel _ _ => GetChannelsRoute E ++ "/direct"
  | .getChannelMembers channelId page perPage _ => GetChannelMembersRoute E channelId ++ Sprintf E "?page=%v&per_page=%v" [.int page, .int perPage]
  | .getChannelMember channelId userId _ => GetChannelMemberRoute E channelId userId
  | .getChannelMembersForUser userId teamId _ => Sprintf E (GetUserRoute E userId ++ "/teams/%v/channels/members") [.str teamId]
  | .createPost _ => GetPostsRoute E
  | .getPost postId _ => GetPostRoute E postId
  | .getPostThread postId _ => GetPostRoute E postId ++ "/thread"
  | .getPostsForChannel channelId page perPage _ => GetChannelRoute E channelId ++ "/posts" ++ Sprintf E "?page=%v&per_page=%v" [.int page, .int perPage]

/-- The body of the request of an operation. -/
def Op.data {J : Codec} : Op J → String
  | .loginById id password => J.MapToJson [("id", id), ("password", password)]
  | .login loginId password => J.MapToJson [("login_id", loginId), ("password", password)]
  | .loginByLdap loginId password => J.MapToJson [("login_id", loginId), ("password", password), ("ldap_only", "true")]
  | .loginWithDevice loginId password deviceId => J.MapToJson [("login_id", loginId), ("password", password), ("device_id", deviceId)]
  | .logout => ""
  | .createUser user => J.UserToJson user
  | .getUser _ _ => ""
  | .getUserByUsername _ _ => ""
  | .getUserByEmail _ _ => ""
  | .getUsers _ _ _ => ""
  | .getUsersInTeam _ _ _ _ => ""
  | .getUsersInChannel _ _ _ _ => ""
  | .getUsersNotInChannel _ _ _ _ _ => ""
  | .getUsersByIds userIds => J.ArrayToJson userIds
  | .updateUser user => J.UserToJson user
  | .updateUserPassword _ currentPassword newPassword => J.MapToJson [("current_password", currentPassword), ("new_password", newPassword)]
  | .updateUserRoles _ roles => J.MapToJson [("roles", roles)]
  | .deleteUser _ => ""
  | .sendPasswordResetEmail email => J.MapToJson [("email", email)]
  | .resetPassword code newPassword => J.MapToJson [("code", code), ("new_password", newPassword)]
  | .createTeam team => J.TeamToJson team
  | .getTeam _ _ => ""
  | .getTeamsForUser _ _ => ""
  | .getTeamMember _ _ _ => ""
  | .createChannel channel => J.ChannelToJson channel
  | .createDirectChannel userId1 userId2 => J.ArrayToJson [userId1, userId2]
  | .getChannelMembers _ _ _ _ => ""
  | .getChannelMember _ _ _ => ""
  | .getChannelMembersForUser _ _ _ => ""
  | .createPost post => J.PostToJson post
  | .getPost _ _ => ""
  | .getPostThread _ _ => ""
  | .getPostsForChannel _ _ _ _ => ""

/-- The conditional token of the request of an operation. -/
def Op.etag {J : Codec} : Op J → String
  | .loginById _ _ => ""
  | .login _ _ => ""
  | .loginByLdap _ _ => ""
  | .loginWithDevice _ _ _ => ""
  | .logout => ""
  | .createUser _ => ""
  | .getUser _ etag => etag
  | .getUserByUsername _ etag => etag
  | .getUserByEmail _ etag => etag
  | .getUsers _ _ etag => etag
  | .getUsersInTeam _ _ _ etag => etag
  | .getUsersInChannel _ _ _ etag => etag
  | .getUsersNotInChannel _ _ _ _ etag => etag
  | .getUsersByIds _ => ""
  | .updateUser _ => ""
  | .updateUserPassword _ _ _ => ""
  | .updateUserRoles _ _ => ""
  | .deleteUser _ => ""
  | .sendPasswordResetEmail _ => ""
  | .resetPassword _ _ => ""
  | .createTeam _ => ""
  | .getTeam _ etag => etag
  | .getTeamsForUser _ etag => etag
  | .getTeamMember _ _ etag => etag
  | .createChannel _ => ""
  | .createDirectChannel _ _ => ""
  | .getChannelMembers _ _ _ etag => etag
  | .getChannelMember _ _ etag => etag
  | .getChannelMembersForUser _ _ etag => etag
  | .createPost _ => ""
  | .getPost _ etag => etag
  | .getPostThread _ etag => etag
  | .getPostsForChannel _ _ _ etag => etag

/-- The Go type of the domain result of an operation. -/
inductive Kind where
  | user
  | users
  | flag
  | team
  | teams
  | teamMember
  | channel
  | channelMember
  | channelMembers
  | post
  | postList
  deriving DecidableEq, Repr

/-- The kind of domain result an operation returns. -/
def Op.kind {J : Codec} : Op J → Kind
  | .loginById _ _ => .user
  | .login _ _ => .user
  | .loginByLdap _ _ => .user
  | .loginWithDevice _ _ _ => .user
  | .logout => .flag
  | .createUser _ => .user
  | .getUser _ _ => .user
  | .getUserByUsername _ _ => .user
  | .getUserByEmail _ _ => .user
  | .getUsers _ _ _ => .users
  | .getUsersInTeam _ _ _ _ => .users
  | .getUsersInChannel _ _ _ _ => .users
  | .getUsersNotInChannel _ _ _ _ _ => .users
  | .getUsersByIds _ => .users
  | .updateUser _ => .user
  | .updateUserPassword _ _ _ => .flag
  | .updateUserRoles _ _ => .flag
  | .deleteUser _ => .flag
  | .sendPasswordResetEmail _ => .flag
  | .resetPassword _ _ => .flag
  | .createTeam _ => .team
  | .getTeam _ _ => .team
  | .getTeamsForUser _ _ => .teams
  | .getTeamMember _ _ _ => .teamMember
  | .createChannel _ => .channel
  | .createDirectChannel _ _ => .channel
  | .getChannelMembers _ _ _ _ => .channelMembers
  | .getChannelMember _ _ _ => .channelMember
  | .getChannelMembersForUser _ _ _ => .channelMembers
  | .createPost _ => .post
  | .getPost _ _ => .post
  | .getPostThread _ _ => .postList
  | .getPostsForChannel _ _ _ _ => .postList

/-- The zero value of a kind: the nil pointer, the nil slice, or false. -/
def Kind.zero (J : Codec) : Kind → Value J
  | .user => .user none
  | .users => .users none
  | .flag => .flag false
  | .team => .team none
  | .teams => .teams none
  | .teamMember => .teamMember none
  | .channel => .channel none
  | .channelMember => .channelMember none
  | .channelMembers => .channelMembers none
  | .post => .post none
  | .postList => .postList none

/-- The decoding applied to a response for a result of the given kind. -/
def Kind.decode (J : Codec) : Kind → HttpResponse → Value J
  | .user, r => .user (J.UserFromJson r.Body)
  | .users, r => .users (J.UserListFromJson r.Body)
  | .flag, r => .flag (CheckStatusOK J r)
  | .team, r => .team (J.TeamFromJson r.Body)
  | .teams, r => .teams (J.TeamListFromJson r.Body)
  | .teamMember, r => .teamMember (J.TeamMemberFromJson r.Body)
  | .channel, r => .channel (J.ChannelFromJson r.Body)
  | .channelMember, r => .channelMember (J.ChannelMemberFromJson r.Body)
  | .channelMembers, r => .channelMembers (J.ChannelMembersFromJson r.Body)
  | .post, r => .post (J.PostFromJson r.Body)
  | .postList, r => .postList (J.PostListFromJson r.Body)

/-- Whether a body decodes to the shape expected for the given kind: the decoder of the kind
returns a non-nil result on it, which for a boolean operation is a map with a status entry. -/
def Kind.decodes (J : Codec) : Kind → String → Bool
  | .user, body => (J.UserFromJson body).isSome
  | .users, body => (J.UserListFromJson body).isSome
  | .flag, body =>
    match J.MapFromJson body with
    | some m => (m.lookup STATUS).isSome
    | none => false
  | .team, body => (J.TeamFromJson body).isSome
  | .teams, body => (J.TeamListFromJson body).isSome
  | .teamMember, body => (J.TeamMemberFromJson body).isSome
  | .channel, body => (J.ChannelFromJson body).isSome
  | .channelMember, body => (J.ChannelMemberFromJson body).isSome
  | .channelMembers, body => (J.ChannelMembersFromJson body).isSome
  | .post, body => (J.PostFromJson body).isSome
  | .postList, body => (J.PostListFromJson body).isSome

/-- The zero value an operation returns on its error branch. -/
def Op.zero {J : Codec} (op : Op J) : Value J :=
  Kind.zero J op.kind

/-- The decoding an operation applies to the response when the executor reports no error. -/
def Op.decode {J : Codec} (op : Op J) (r : HttpResponse) : Value J :=
  Kind.decode J op.kind r

/-- The request an operation hands to the transport, unless building it panics. -/
def Op.request {J : Codec} (E : Env) (c : Client4) (op : Op J) : Except Fault Request :=
  buildRequest E c op.method (op.url E) op.data op.etag

/-- The client after a run of the operation on which the executor reported no error. -/
def Op.onSuccess {J : Codec} (c : Client4) (r : HttpResponse) (op : Op J) : Client4 :=
  if op.isLogin then { c with AuthToken := r.Header.Get HEADER_TOKEN, AuthType := HEADER_BEARER }
  else if op.isLogout then { c with AuthToken := "", AuthType := HEADER_BEARER }
  else c

/-! ## Every method of the client -/

/-- A call of one of the exported methods of `Client4`: the two token setters, the route
builders, the executor and its four wrappers, and the resource operations. -/
inductive Call (J : Codec) where
  | setOAuthToken (token : String)
  | clearOAuthToken
  | getUsersRoute
  | getUserRoute (userId : String)
  | getUserByUsernameRoute (userName : String)
  | getUserByEmailRoute (email : String)
  | getTeamsRoute
  | getTeamRoute (teamId : String)
  | getTeamMemberRoute (teamId userId : String)
  | getChannelsRoute
  | getChannelRoute (channelId : String)
  | getChannelMembersRoute (channelId : String)
  | getChannelMemberRoute (channelId userId : String)
  | getPostsRoute
  | getPostRoute (postId : String)
  | doApiGet (url etag : String)
  | doApiPost (url data : String)
  | doApiPut (url data : String)
  | doApiDelete (url data : String)
  | doApiRequest (method url data etag : String)
  | op (o : Op J)

/-- Whether the call is one of the four logins or `Logout`. -/
def Call.isLoginOrLogout {J : Codec} : Call J → Bool
  | .op o => o.isLogin || o.isLogout
  | _ => false

/-- Whether the call is `SetOAuthToken` or `ClearOAuthToken`. -/
def Call.isTokenSetter {J : Codec} : Call J → Bool
  | .setOAuthToken _ => true
  | .clearOAuthToken => true
  | _ => false

/-- The client after a call. The route builders, the executor and its wrappers have no
assignment to a field of the client, so they leave it as it is on every outcome. -/
def Call.after {J : Codec} (E : Env) (c : Client4) : Call J → Client4
  | .setOAuthToken token => SetOAuthToken c token
  | .clearOAuthToken => ClearOAuthToken c
  | .op o => (o.run E c).2
  | _ => c

/-! ## Concrete environments and a concrete codec, for evaluation -/

/-- A codec over strings: a domain object is its own JSON text, the empty body decodes to
nothing, and the error decoded from a body has the body as identifier. -/
def textCodec : Codec where
  User := String
  Team := String
  TeamMember := String
  Channel := String
  ChannelMember := String
  ChannelMembers := String
  Post := String
  PostList := String
  UserId := fun u => u
  UserToJson := fun u => u
  TeamToJson := fun t => t
  ChannelToJson := fun ch => ch
  PostToJson := fun p => p
  MapToJson := fun m => ",".intercalate (m.map fun kv => kv.1 ++ "=" ++ kv.2)
  ArrayToJson := fun a => ",".intercalate a
  UserFromJson := fun b => if b = "" then none else some b
  UserListFromJson := fun b => if b = "" then none else some [some b]
  TeamFromJson := fun b => if b = "" then none else some b
  TeamListFromJson := fun b => if b = "" then none else some [some b]
  TeamMemberFromJson := fun b => if b = "" then none else some b
  ChannelFromJson := fun b => if b = "" then none else some b
  ChannelMemberFromJson := fun b => if b = "" then none else some b
  ChannelMembersFromJson := fun b => if b = "" then none else some b
  PostFromJson := fun b => if b = "" then none else some b
  PostListFromJson := fun b => if b = "" then none else some b
  MapFromJson := fun b => if b = "" then none else some [(STATUS, b)]
  AppErrorFromJson := fun b => { Id := b, Message := b, DetailedError := "", Where := "" }

/-- An environment whose server answers every request with the given response. -/
def envAnswer (r : HttpResponse) : Env where
  NewRequestOk := fun _ _ => true
  Do := fun _ => .ok r
  fmtComplex := fun _ _ _ => ""

/-- An environment in which no server listens: every call fails in the transport. -/
def envDown : Env where
  NewRequestOk := fun _ _ => true
  Do := fun _ => .error "dial tcp: connection refused"
  fmtComplex := fun _ _ _ => ""

/-- A 404 answer with a structured error as body. -/
def notFound : HttpResponse :=
  ⟨404, [("X-Request-Id", "r1"), ("X-Version-Id", "3.6.0")], "api.context.404.app_error"⟩

/-- A 200 answer whose body does not decode. -/
def okEmpty : HttpResponse :=
  ⟨200, [("X-Request-Id", "r1"), ("Etag", "e1"), ("X-Version-Id", "3.6.0")], ""⟩

/-- A 304 answer; it has no body. -/
def notModified : HttpResponse :=
  ⟨304, [("X-Request-Id", "r2"), ("Etag", "e1"), ("X-Version-Id", "3.6.0")], ""⟩

/-- A 401 answer with a structured error as body. -/
def unauthorized : HttpResponse :=
  ⟨401, [("X-Request-Id", "r3")], "api.context.session_expired.app_error"⟩

/-- A 200 answer to a login, with the credential in the token header. -/
def loginOk : HttpResponse :=
  ⟨200, [("Token", "s3cr3t"), ("X-Request-Id", "r4")], "u1"⟩

/-- A 200 answer that carries no token header. -/
def okNoToken : HttpResponse :=
  ⟨200, [("X-Request-Id", "r5")], "OK"⟩

/-- A client that holds a bearer credential. -/
def loggedIn : Client4 :=
  { Url := "http://localhost:8065", ApiUrl := "http://localhost:8065/api/v4",
    AuthToken := "tok", AuthType := HEADER_BEARER }

/-! ## Sequences of calls -/

/-- The client after a sequence of calls of exported methods, each against its own environment:
the server may answer every call in any way. -/
def runCalls {J : Codec} (c : Client4) : List (Env × Call J) → Client4
  | [] => c
  | step :: rest => runCalls (step.2.after step.1 c) rest

/-! ## The shape shared by the operations -/

/-- What an operation makes of the outcome of the executor. -/
def Op.finish {J : Codec} (c : Client4) (op : Op J) :
    Except Fault (Option HttpResponse × Option AppError) →
      Except Fault (Value J × Response) × Client4
  | .error f => (.error f, c)
  | .ok (r, some err) =>
    ((deref r).map fun r => (op.zero, { StatusCode := r.StatusCode, Error := some err }), c)
  | .ok (none, none) =>
    (.error .nilDeref,
      if op.isLogout then { c with AuthToken := "", AuthType := HEADER_BEARER } else c)
  | .ok (some r, none) => (.ok (op.decode r, BuildResponse r), op.onSuccess c r)

theorem Op.run_eq_finish {J : Codec} (E : Env) (c : Client4) (op : Op J) :
    op.run E c = op.finish c (DoApiRequest E J c op.method (op.url E) op.data op.etag) := by
  cases op <;>
    simp only [Op.run, Op.finish, Op.method, Op.url, Op.data, Op.etag, Op.zero, Op.decode, Op.kind, Kind.zero, Kind.decode,
      Op.onSuccess, Op.isLogin, Op.isLogout, LoginById, Login, LoginByLdap, LoginWithDevice,
      Model.login, Logout, CreateUser, GetUser, GetUserByUsername, GetUserByEmail, GetUsers,
      GetUsersInTeam, GetUsersInChannel, GetUsersNotInChannel, GetUsersByIds, UpdateUser,
      UpdateUserPassword, UpdateUserRoles, DeleteUser, SendPasswordResetEmail, ResetPassword,
      CreateTeam, GetTeam, GetTeamsForUser, GetTeamMember, CreateChannel, CreateDirectChannel,
      GetChannelMembers, GetChannelMember, GetChannelMembersForUser, CreatePost, GetPost,
      GetPostThread, GetPostsForChannel, DoApiGet, DoApiPost, DoApiPut, DoApiDelete] <;>
    (generalize DoApiRequest _ _ _ _ _ _ _ = res
     rcases res with f | ⟨_ | r, _ | err⟩ <;> rfl)

/-! ## The executor on each outcome of the transport -/

theorem DoApiRequest_of_response {J : Codec} (E : Env) (c : Client4)
    (method url data etag : String) (rq : Request) (r : HttpResponse)
    (hrq : buildRequest E c method url data etag = .ok rq) (hdo : E.Do rq = .ok r) :
    DoApiRequest E J c method url data etag =
      .ok (some r,
        if r.StatusCode = 304 then none
        else if r.StatusCode ≥ 300 then some (J.AppErrorFromJson r.Body) else none) := by
  unfold DoApiRequest
  rw [hrq]
  simp only [hdo]
  split_ifs <;> rfl

theorem DoApiRequest_of_failure {J : Codec} (E : Env) (c : Client4)
    (method url data etag : String) (rq : Request) (msg : String)
    (hrq : buildRequest E c method url data etag = .ok rq) (hdo : E.Do rq = .error msg) :
    DoApiRequest E J c method url data etag =
      .ok (none, some (NewLocAppError url "model.client.connecting.app_error" msg)) := by
  unfold DoApiRequest
  rw [hrq]
  simp only [hdo]

/-- An operation whose response has a status of 300 or more, other than 304. -/
theorem Op.run_of_error_status {J : Codec} (E : Env) (c : Client4) (op : Op J) (rq : Request)
    (r : HttpResponse) (hrq : op.request E c = .ok rq) (hdo : E.Do rq = .ok r)
    (h300 : 300 ≤ r.StatusCode) (h304 : r.StatusCode ≠ 304) :
    op.run E c =
      (.ok (op.zero, { StatusCode := r.StatusCode, Error := some (J.AppErrorFromJson r.Body) }),
        c) := by
  rw [Op.run_eq_finish, DoApiRequest_of_response E c _ _ _ _ rq r hrq hdo]
  simp [h304, h300, Op.finish, deref, Except.map]

/-- An operation whose response has a status below 300, or 304. -/
theorem Op.run_of_no_error {J : Codec} (E : Env) (c : Client4) (op : Op J) (rq : Request)
    (r : HttpResponse) (hrq : op.request E c = .ok rq) (hdo : E.Do rq = .ok r)
    (h : r.StatusCode < 300 ∨ r.StatusCode = 304) :
    op.run E c = (.ok (op.decode r, BuildResponse r), op.onSuccess c r) := by
  rw [Op.run_eq_finish, DoApiRequest_of_response E c _ _ _ _ rq r hrq hdo]
  have hite : (if r.StatusCode = 304 then (none : Option AppError)
      else if r.StatusCode ≥ 300 then some (J.AppErrorFromJson r.Body) else none) = none := by
    rcases h with h | h
    · have h1 : ¬ r.StatusCode ≥ 300 := by omega
      simp [h1]
    · simp [h]
  rw [hite]
  rfl

/-- An operation whose call fails in the transport panics and leaves the client as it was. -/
theorem Op.run_of_failure {J : Codec} (E : Env) (c : Client4) (op : Op J) (rq : Request)
    (msg : String) (hrq : op.request E c = .ok rq) (hdo : E.Do rq = .error msg) :
    op.run E c = (.error .nilDeref, c) := by
  rw [Op.run_eq_finish, DoApiRequest_of_failure E c _ _ _ _ rq msg hrq hdo]
  rfl

theorem Kind.zero_isZero (J : Codec) (k : Kind) : (Kind.zero J k).isZero = true := by
  cases k <;> rfl

theorem Kind.decode_isZero (J : Codec) (k : Kind) (r : HttpResponse)
    (h : Kind.decodes J k r.Body = false) : (Kind.decode J k r).isZero = true := by
  cases k
  case flag =>
    simp only [Kind.decodes] at h
    simp only [Kind.decode, Value.isZero, CheckStatusOK]
    cases hm : J.MapFromJson r.Body with
    | none => rfl
    | some m =>
      rw [hm] at h
      cases hl : List.lookup STATUS m with
      | none => simp [STATUS_OK, hl]
      | some v => simp [hl] at h
  all_goals simp_all [Kind.decodes, Kind.decode, Value.isZero]

theorem length_pos_iff_ne_empty (s : String) : s.length > 0 ↔ s ≠ "" := by
  rw [gt_iff_lt, String.length, List.length_pos]
  constructor
  · intro h he
    exact h (by rw [he])
  · intro h he
    exact h (String.ext he)

/-- The authorization values of the request built by the executor. -/
theorem buildRequest_auth_values (E : Env) (c : Client4) (method url data etag : String)
    (rq : Request) (hrq : buildRequest E c method url data etag = .ok rq) :
    rq.Header.Values HEADER_AUTH =
      if c.AuthToken = "" then [] else [c.AuthType ++ " " ++ c.AuthToken] := by
  have hk : CanonicalMIMEHeaderKey HEADER_ETAG_CLIENT ≠ CanonicalMIMEHeaderKey HEADER_AUTH := by
    decide
  unfold buildRequest at hrq
  by_cases hok : E.NewRequestOk method (c.ApiUrl ++ url) = true
  · rw [if_pos hok] at hrq
    injection hrq with hrq
    subst hrq
    by_cases he : etag.length > 0 <;> by_cases ht : c.AuthToken = "" <;>
      simp [he, ht, (length_pos_iff_ne_empty c.AuthToken), Header.Values, Header.Set, hk]
  · rw [if_neg hok] at hrq
    cases hrq

/-- The client after an operation that is neither a login nor `Logout`. -/
theorem Op.run_snd_of_plain {J : Codec} (E : Env) (c : Client4) (op : Op J)
    (h1 : op.isLogin = false) (h2 : op.isLogout = false) : (op.run E c).2 = c := by
  rw [Op.run_eq_finish]
  generalize DoApiRequest E J c op.method (op.url E) op.data op.etag = res
  rcases res with f | ⟨_ | r, _ | err⟩ <;> simp [Op.finish, Op.onSuccess, h1, h2]

theorem Logout_eq_run {J : Codec} (E : Env) (c : Client4) :
    (Logout E J c).2 = ((Op.logout : Op J).run E c).2 := rfl

/-! ## Claims -/

/-- C1: for every resource operation and every response the transport delivers with a status
code `s` such that `s ≥ 300` and `s ≠ 304`, the operation returns the zero (nil) domain value and
a metadata value whose `StatusCode` is `s` and whose `Error` is non-nil and is the structured
error decoded from the body of the response. -/
theorem C1_error_status_yields_decoded_error {J : Codec} (E : Env) (c : Client4) (op : Op J)
    (rq : Request) (r : HttpResponse) (hrq : op.request E c = .ok rq) (hdo : E.Do rq = .ok r)
    (h300 : 300 ≤ r.StatusCode) (h304 : r.StatusCode ≠ 304) :
    ∃ v resp, (op.run E c).1 = .ok (v, resp) ∧ v.isZero = true ∧
      resp.StatusCode = r.StatusCode ∧ resp.Error ≠ none ∧
      resp.Error = some (J.AppErrorFromJson r.Body) := by
  refine ⟨op.zero, { StatusCode := r.StatusCode, Error := some (J.AppErrorFromJson r.Body) },
    ?_, Kind.zero_isZero J op.kind, rfl, ?_, rfl⟩
  · rw [Op.run_of_error_status E c op rq r hrq hdo h300 h304]
  · simp

theorem C1_witness :
    (300 ≤ notFound.StatusCode ∧ notFound.StatusCode ≠ 304) ∧
    ∃ v resp, ((Op.getUser "u1" "" : Op textCodec).run (envAnswer notFound) loggedIn).1 =
        .ok (v, resp) ∧
      v.isZero = true ∧ resp.StatusCode = notFound.StatusCode ∧ resp.Error ≠ none ∧
      resp.Error = some (textCodec.AppErrorFromJson notFound.Body) :=
  ⟨by decide,
    C1_error_status_yields_decoded_error (envAnswer notFound) loggedIn (Op.getUser "u1" "")
      ⟨"GET", "http://localhost:8065/api/v4/users/u1", "", [("Authorization", "Bearer tok")], true⟩
      notFound rfl rfl (by decide) (by decide)⟩

/-- C2: for every resource operation and every response with a status code below 300, the
metadata returned carries no error and its `StatusCode`, `RequestId`, `Etag` and `ServerVersion`
are those of the response, whatever the body contains; the domain result is what the decoder of
the operation makes of the body, so a body that does not decode to the expected shape yields a
zero-value domain result and still no error. -/
theorem C2_success_carries_no_error {J : Codec} (E : Env) (c : Client4) (op : Op J)
    (rq : Request) (r : HttpResponse) (hrq : op.request E c = .ok rq) (hdo : E.Do rq = .ok r)
    (h : r.StatusCode < 300) :
    ∃ v resp, (op.run E c).1 = .ok (v, resp) ∧ resp.Error = none ∧
      resp.StatusCode = r.StatusCode ∧ resp.RequestId = r.Header.Get HEADER_REQUEST_ID ∧
      resp.Etag = r.Header.Get HEADER_ETAG_SERVER ∧
      resp.ServerVersion = r.Header.Get HEADER_VERSION_ID ∧
      v = op.decode r ∧ (Kind.decodes J op.kind r.Body = false → v.isZero = true) := by
  refine ⟨op.decode r, BuildResponse r, ?_, rfl, rfl, rfl, rfl, rfl, rfl, ?_⟩
  · rw [Op.run_of_no_error E c op rq r hrq hdo (Or.inl h)]
  · exact Kind.decode_isZero J op.kind r

theorem C2_witness :
    okEmpty.StatusCode < 300 ∧
    ∃ v resp, ((Op.getUser "u1" "" : Op textCodec).run (envAnswer okEmpty) loggedIn).1 =
        .ok (v, resp) ∧ resp.Error = none ∧
      resp.StatusCode = okEmpty.StatusCode ∧
      resp.RequestId = okEmpty.Header.Get HEADER_REQUEST_ID ∧
      resp.Etag = okEmpty.Header.Get HEADER_ETAG_SERVER ∧
      resp.ServerVersion = okEmpty.Header.Get HEADER_VERSION_ID ∧
      v = (Op.getUser "u1" "" : Op textCodec).decode okEmpty ∧
      (Kind.decodes textCodec (Op.getUser "u1" "" : Op textCodec).kind okEmpty.Body = false →
        v.isZero = true) :=
  ⟨by decide,
    C2_success_carries_no_error (envAnswer okEmpty) loggedIn (Op.getUser "u1" "")
      ⟨"GET", "http://localhost:8065/api/v4/users/u1", "", [("Authorization", "Bearer tok")], true⟩
      okEmpty rfl rfl (by decide)⟩

/-- C3: when the response status is 304, the executor `DoApiRequest` returns the response with a
nil error whatever the decoders are (it does not decode the body), and the operation (`GetUser`
and likewise every operation) returns metadata with `StatusCode` 304 and a nil `Error`; the
domain value it returns is nil, the body of a 304 response being empty and the empty body not
decoding to the expected shape. -/
theorem C3_not_modified {J : Codec} (E : Env) (c : Client4) (op : Op J)
    (rq : Request) (r : HttpResponse) (hrq : op.request E c = .ok rq) (hdo : E.Do rq = .ok r)
    (h304 : r.StatusCode = 304) (hbody : r.Body = "")
    (hnil : Kind.decodes J op.kind "" = false) :
    (∃ v resp, (op.run E c).1 = .ok (v, resp) ∧ resp.StatusCode = 304 ∧ resp.Error = none ∧
      v.isZero = true) ∧
    ∀ J1 : Codec, DoApiRequest E J1 c op.method (op.url E) op.data op.etag = .ok (some r, none) := by
  constructor
  · refine ⟨op.decode r, BuildResponse r, ?_, h304, rfl, ?_⟩
    · rw [Op.run_of_no_error E c op rq r hrq hdo (Or.inr h304)]
    · exact Kind.decode_isZero J op.kind r (by rw [hbody]; exact hnil)
  · intro J1
    rw [DoApiRequest_of_response E c _ _ _ _ rq r hrq hdo]
    simp [h304]

theorem C3_witness :
    (notModified.StatusCode = 304 ∧ notModified.Body = "") ∧
    (∃ v resp, ((Op.getUser "u1" "e1" : Op textCodec).run (envAnswer notModified) loggedIn).1 =
        .ok (v, resp) ∧ resp.StatusCode = 304 ∧ resp.Error = none ∧ v.isZero = true) ∧
    ∀ J1 : Codec, DoApiRequest (envAnswer notModified) J1 loggedIn "GET" "/users/u1" "" "e1" =
      .ok (some notModified, none) :=
  ⟨by decide,
    C3_not_modified (envAnswer notModified) loggedIn (Op.getUser "u1" "e1")
      ⟨"GET", "http://localhost:8065/api/v4/users/u1", "",
        [("If-None-Match", "e1"), ("Authorization", "Bearer tok")], true⟩
      notModified rfl rfl rfl rfl rfl⟩

/-- C4: evaluation at a transport failure. `DoApiRequest` returns a nil response with the
transport error, and each operation then reads `r.StatusCode` through that nil response: it
panics instead of returning metadata that carries the error. -/
theorem C4_transport_failure_panics :
    DoApiRequest envDown textCodec (NewAPIv4Client "http://localhost:8065") "GET" "/users/u1" "" ""
      = .ok (none, some (NewLocAppError "/users/u1" "model.client.connecting.app_error"
          "dial tcp: connection refused")) ∧
    GetUser envDown textCodec (NewAPIv4Client "http://localhost:8065") "u1" "" =
      .error .nilDeref ∧
    CreateUser envDown textCodec (NewAPIv4Client "http://localhost:8065") "u1" =
      .error .nilDeref ∧
    (Login envDown textCodec (NewAPIv4Client "http://localhost:8065") "a@b.com" "pw").1 =
      .error .nilDeref ∧
    (Logout envDown textCodec (NewAPIv4Client "http://localhost:8065")).1 = .error .nilDeref :=
  ⟨rfl, rfl, rfl, rfl, rfl⟩

/-- C5: for every method, path, body and conditional token, when the transport call fails, the
executor `DoApiRequest` returns no response object (nil) together with a non-nil error whose
identifier is `model.client.connecting.app_error` and whose detail is the message of the
underlying transport failure. -/
theorem C5_transport_failure_error {J : Codec} (E : Env) (c : Client4)
    (method url data etag : String) (rq : Request) (msg : String)
    (hrq : buildRequest E c method url data etag = .ok rq) (hdo : E.Do rq = .error msg) :
    ∃ err, DoApiRequest E J c method url data etag = .ok (none, some err) ∧
      err.Id = "model.client.connecting.app_error" ∧ err.DetailedError = msg :=
  ⟨_, DoApiRequest_of_failure E c method url data etag rq msg hrq hdo, rfl, rfl⟩

theorem C5_witness :
    envDown.Do ⟨"PUT", "http://localhost:8065/api/v4/users/u1/roles", "roles=system_user",
        [("If-None-Match", "e1"), ("Authorization", "Bearer tok")], true⟩ =
      .error "dial tcp: connection refused" ∧
    ∃ err, DoApiRequest envDown textCodec loggedIn "PUT" "/users/u1/roles" "roles=system_user" "e1"
        = .ok (none, some err) ∧
      err.Id = "model.client.connecting.app_error" ∧
      err.DetailedError = "dial tcp: connection refused" :=
  ⟨rfl,
    C5_transport_failure_error envDown loggedIn "PUT" "/users/u1/roles" "roles=system_user" "e1"
      ⟨"PUT", "http://localhost:8065/api/v4/users/u1/roles", "roles=system_user",
        [("If-None-Match", "e1"), ("Authorization", "Bearer tok")], true⟩
      "dial tcp: connection refused" rfl rfl⟩

/-- C6, as stated, fails: the server answers the logout call with 401, `Logout` returns, and
the credential of the client is still there. -/
theorem C6_counterexample :
    (Logout (envAnswer unauthorized) textCodec loggedIn).1 =
      .ok (false, { StatusCode := 401,
                    Error := some (textCodec.AppErrorFromJson unauthorized.Body) }) ∧
    (Logout (envAnswer unauthorized) textCodec loggedIn).2.AuthToken ≠ "" :=
  ⟨rfl, by decide⟩

/-- C6, amended: for every client state, after a `Logout` whose response has a status below 300,
or the status 304, the credential `AuthToken` is empty; when the server answers the logout call
with any other status, `Logout` returns false with the decoded error and leaves the client as it
was. -/
theorem C6_logout_clears_when_no_error {J : Codec} (E : Env) (c : Client4) (rq : Request)
    (r : HttpResponse) (hrq : buildRequest E c "POST" "/users/logout" "" "" = .ok rq)
    (hdo : E.Do rq = .ok r) :
    ((r.StatusCode < 300 ∨ r.StatusCode = 304) →
      (Logout E J c).1 = .ok (CheckStatusOK J r, BuildResponse r) ∧
      (Logout E J c).2.AuthToken = "") ∧
    ((300 ≤ r.StatusCode ∧ r.StatusCode ≠ 304) →
      (Logout E J c).1 =
        .ok (false, { StatusCode := r.StatusCode, Error := some (J.AppErrorFromJson r.Body) }) ∧
      (Logout E J c).2 = c) := by
  constructor
  · intro h
    have hite : (if r.StatusCode = 304 then (none : Option AppError)
        else if r.StatusCode ≥ 300 then some (J.AppErrorFromJson r.Body) else none) = none := by
      rcases h with h | h
      · have h1 : ¬ r.StatusCode ≥ 300 := by omega
        simp [h1]
      · simp [h]
    simp only [Logout, DoApiPost, DoApiRequest_of_response E c _ _ _ _ rq r hrq hdo, hite]
    exact ⟨trivial, trivial⟩
  · rintro ⟨h300, h304⟩
    simp only [Logout, DoApiPost, DoApiRequest_of_response E c _ _ _ _ rq r hrq hdo]
    simp [h304, h300, deref, Except.map]

theorem C6_witness :
    ((okNoToken.StatusCode < 300 ∨ okNoToken.StatusCode = 304) →
      (Logout (envAnswer okNoToken) textCodec loggedIn).1 =
        .ok (CheckStatusOK textCodec okNoToken, BuildResponse okNoToken) ∧
      (Logout (envAnswer okNoToken) textCodec loggedIn).2.AuthToken = "") ∧
    ((300 ≤ okNoToken.StatusCode ∧ okNoToken.StatusCode ≠ 304) →
      (Logout (envAnswer okNoToken) textCodec loggedIn).1 =
        .ok (false, { StatusCode := okNoToken.StatusCode,
                      Error := some (textCodec.AppErrorFromJson okNoToken.Body) }) ∧
      (Logout (envAnswer okNoToken) textCodec loggedIn).2 = loggedIn) :=
  C6_logout_clears_when_no_error (envAnswer okNoToken) loggedIn
    ⟨"POST", "http://localhost:8065/api/v4/users/logout", "",
      [("Authorization", "Bearer tok")], true⟩
    okNoToken rfl rfl

/-- C7, as stated, fails: after a `Logout` answered with 200 the kind `AuthType` is not the empty
string, and the pair is not that of a client freshly built by `NewAPIv4Client`. -/
theorem C7_counterexample :
    okNoToken.StatusCode < 300 ∧
    (Logout (envAnswer okNoToken) textCodec loggedIn).1 = .ok (true, BuildResponse okNoToken) ∧
    (Logout (envAnswer okNoToken) textCodec loggedIn).2.AuthType ≠ "" ∧
    (Logout (envAnswer okNoToken) textCodec loggedIn).2.AuthType ≠
      (NewAPIv4Client "http://localhost:8065").AuthType :=
  ⟨by decide, rfl, by decide, by decide⟩

/-- C7, amended: after a `Logout` whose call succeeded (status below 300), `AuthToken` is the
empty string and `AuthType` is the bearer kind `HEADER_BEARER`: the pair is the one
`ClearOAuthToken` leaves, and differs in its kind from that of a client freshly built by
`NewAPIv4Client`, whose `AuthType` is the empty string. -/
theorem C7_logout_leaves_bearer_kind {J : Codec} (E : Env) (c : Client4) (rq : Request)
    (r : HttpResponse) (hrq : buildRequest E c "POST" "/users/logout" "" "" = .ok rq)
    (hdo : E.Do rq = .ok r) (h : r.StatusCode < 300) :
    (Logout E J c).2.AuthToken = "" ∧ (Logout E J c).2.AuthType = HEADER_BEARER ∧
      (Logout E J c).2 = ClearOAuthToken c ∧
      (NewAPIv4Client c.Url).AuthToken = "" ∧ (NewAPIv4Client c.Url).AuthType = "" := by
  have hrun := Op.run_of_no_error E c (Op.logout : Op J) rq r hrq hdo (Or.inl h)
  have h2 : (Logout E J c).2 = ClearOAuthToken c := by
    rw [Logout_eq_run, hrun]
    rfl
  rw [h2]
  exact ⟨rfl, rfl, rfl, rfl, rfl⟩

theorem C7_witness :
    okNoToken.StatusCode < 300 ∧
    (Logout (envAnswer okNoToken) textCodec loggedIn).2.AuthToken = "" ∧
      (Logout (envAnswer okNoToken) textCodec loggedIn).2.AuthType = HEADER_BEARER ∧
      (Logout (envAnswer okNoToken) textCodec loggedIn).2 = ClearOAuthToken loggedIn ∧
      (NewAPIv4Client loggedIn.Url).AuthToken = "" ∧ (NewAPIv4Client loggedIn.Url).AuthType = "" :=
  ⟨by decide,
    C7_logout_leaves_bearer_kind (envAnswer okNoToken) loggedIn
      ⟨"POST", "http://localhost:8065/api/v4/users/logout", "",
        [("Authorization", "Bearer tok")], true⟩
      okNoToken rfl rfl (by decide)⟩

/-- C8, as stated, fails: a login answered with 200 and no token header leaves an empty
credential, and a request built by the executor afterwards carries no authorization header. -/
theorem C8_counterexample :
    okNoToken.StatusCode < 300 ∧
    (Login (envAnswer okNoToken) textCodec (NewAPIv4Client "http://localhost:8065")
        "a@b.com" "Password1").1 = .ok (some "OK", BuildResponse okNoToken) ∧
    buildRequest (envAnswer okNoToken)
        (Login (envAnswer okNoToken) textCodec (NewAPIv4Client "http://localhost:8065")
          "a@b.com" "Password1").2 "GET" "/users/u1" "" "" =
      .ok ⟨"GET", "http://localhost:8065/api/v4/users/u1", "", [], true⟩ ∧
    Header.Values [] HEADER_AUTH = [] :=
  ⟨by decide, rfl, rfl, rfl⟩

/-- C8, amended: after a successful login (any of the four logins, response status below 300),
the credential of the client equals the value of the token header of the login response and its
kind is the bearer kind; every request built by the executor afterwards carries exactly one
authorization header, whose value is the bearer kind, a space, and that credential, provided the
credential is not empty, and carries no authorization header when it is empty. -/
theorem C8_login_sets_bearer_credential {J : Codec} (E : Env) (c : Client4) (op : Op J)
    (rq : Request) (r : HttpResponse) (hop : op.isLogin = true)
    (hrq : op.request E c = .ok rq) (hdo : E.Do rq = .ok r) (h : r.StatusCode < 300) :
    (op.run E c).2.AuthToken = r.Header.Get HEADER_TOKEN ∧
    (op.run E c).2.AuthType = HEADER_BEARER ∧
    ∀ (E1 : Env) (method url data etag : String) (rq1 : Request),
      buildRequest E1 (op.run E c).2 method url data etag = .ok rq1 →
      rq1.Header.Values HEADER_AUTH =
        if r.Header.Get HEADER_TOKEN = "" then []
        else [HEADER_BEARER ++ " " ++ r.Header.Get HEADER_TOKEN] := by
  have hrun := Op.run_of_no_error E c op rq r hrq hdo (Or.inl h)
  have hc : (op.run E c).2 =
      { c with AuthToken := r.Header.Get HEADER_TOKEN, AuthType := HEADER_BEARER } := by
    rw [hrun]
    simp [Op.onSuccess, hop]
  rw [hc]
  refine ⟨rfl, rfl, ?_⟩
  intro E1 method url data etag rq1 hrq1
  exact buildRequest_auth_values E1 _ method url data etag rq1 hrq1

theorem C8_witness :
    loginOk.StatusCode < 300 ∧
    ((Op.login "a@b.com" "Password1" : Op textCodec).run (envAnswer loginOk)
        (NewAPIv4Client "http://localhost:8065")).2.AuthToken = loginOk.Header.Get HEADER_TOKEN ∧
    ((Op.login "a@b.com" "Password1" : Op textCodec).run (envAnswer loginOk)
        (NewAPIv4Client "http://localhost:8065")).2.AuthType = HEADER_BEARER ∧
    ∀ (E1 : Env) (method url data etag : String) (rq1 : Request),
      buildRequest E1 ((Op.login "a@b.com" "Password1" : Op textCodec).run (envAnswer loginOk)
        (NewAPIv4Client "http://localhost:8065")).2 method url data etag = .ok rq1 →
      rq1.Header.Values HEADER_AUTH =
        if loginOk.Header.Get HEADER_TOKEN = "" then []
        else [HEADER_BEARER ++ " " ++ loginOk.Header.Get HEADER_TOKEN] :=
  ⟨by decide,
    C8_login_sets_bearer_credential (envAnswer loginOk) (NewAPIv4Client "http://localhost:8065")
      (Op.login "a@b.com" "Password1")
      ⟨"POST", "http://localhost:8065/api/v4/users/login", "login_id=a@b.com,password=Password1",
        [], true⟩
      loginOk rfl rfl rfl (by decide)⟩

/-- C9: for every method, path, body and conditional token, when the credential `AuthToken` of
the client is empty the request built by `DoApiRequest` carries no authorization header,
whatever the credential kind is. -/
theorem C9_no_credential_no_authorization (E : Env) (c : Client4)
    (method url data etag : String) (rq : Request) (hc : c.AuthToken = "")
    (hrq : buildRequest E c method url data etag = .ok rq) :
    rq.Header.Values HEADER_AUTH = [] ∧ rq.Header.Get HEADER_AUTH = "" ∧
      ∀ p ∈ rq.Header, p.1 ≠ CanonicalMIMEHeaderKey HEADER_AUTH := by
  have hv := buildRequest_auth_values E c method url data etag rq hrq
  rw [if_pos hc] at hv
  have hall : ∀ p ∈ rq.Header, p.1 ≠ CanonicalMIMEHeaderKey HEADER_AUTH := by
    intro p hp hk
    have hmem : p.2 ∈ rq.Header.Values HEADER_AUTH := by
      unfold Header.Values
      exact List.mem_map.mpr ⟨p, List.mem_filter.mpr ⟨hp, by simpa using hk⟩, rfl⟩
    rw [hv] at hmem
    cases hmem
  refine ⟨hv, ?_, hall⟩
  unfold Header.Get
  have hfind : List.find? (fun p => decide (p.1 = CanonicalMIMEHeaderKey HEADER_AUTH)) rq.Header
      = none := by
    rw [List.find?_eq_none]
    intro p hp
    simpa using hall p hp
  rw [hfind]

theorem C9_witness :
    (SetOAuthToken (NewAPIv4Client "http://localhost:8065") "").AuthToken = "" ∧
    Header.Values [("If-None-Match", "e1")] HEADER_AUTH = [] ∧
    Header.Get [("If-None-Match", "e1")] HEADER_AUTH = "" ∧
    ∀ p ∈ ([("If-None-Match", "e1")] : Header), p.1 ≠ CanonicalMIMEHeaderKey HEADER_AUTH :=
  ⟨rfl,
    C9_no_credential_no_authorization envDown
      (SetOAuthToken (NewAPIv4Client "http://localhost:8065") "") "GET" "/users/u1" "" "e1"
      ⟨"GET", "http://localhost:8065/api/v4/users/u1", "", [("If-None-Match", "e1")], true⟩
      rfl rfl⟩

/-- C10, as stated, fails: `SetOAuthToken` is an operation the client exposes, it is neither a
login nor `Logout`, and it changes both `AuthToken` and `AuthType`. -/
theorem C10_counterexample :
    (Call.setOAuthToken "tok" : Call textCodec).isLoginOrLogout = false ∧
    ((Call.setOAuthToken "tok" : Call textCodec).after envDown
        (NewAPIv4Client "http://localhost:8065")).AuthToken ≠
      (NewAPIv4Client "http://localhost:8065").AuthToken ∧
    ((Call.setOAuthToken "tok" : Call textCodec).after envDown
        (NewAPIv4Client "http://localhost:8065")).AuthType ≠
      (NewAPIv4Client "http://localhost:8065").AuthType :=
  ⟨rfl, by decide, by decide⟩

/-- C10, amended: only the logins, `Logout`, `SetOAuthToken` and `ClearOAuthToken` mutate the
(credential, credential kind) pair: every other operation exposed by the client leaves
`AuthToken` and `AuthType` (and `Url`, `ApiUrl`) unchanged, on every outcome of the call. -/
theorem C10_other_calls_keep_client {J : Codec} (E : Env) (c : Client4) (call : Call J)
    (h1 : call.isLoginOrLogout = false) (h2 : call.isTokenSetter = false) :
    call.after E c = c ∧
      (call.after E c).AuthToken = c.AuthToken ∧ (call.after E c).AuthType = c.AuthType ∧
      (call.after E c).Url = c.Url ∧ (call.after E c).ApiUrl = c.ApiUrl := by
  have h : call.after E c = c := by
    cases call with
    | op o =>
      simp only [Call.isLoginOrLogout, Bool.or_eq_false_iff] at h1
      exact Op.run_snd_of_plain E c o h1.1 h1.2
    | setOAuthToken token => simp [Call.isTokenSetter] at h2
    | clearOAuthToken => simp [Call.isTokenSetter] at h2
    | _ => rfl
  rw [h]
  exact ⟨rfl, rfl, rfl, rfl, rfl⟩

theorem C10_witness :
    (Call.op (Op.getUser "u1" "") : Call textCodec).after (envAnswer unauthorized) loggedIn
        = loggedIn ∧
      ((Call.op (Op.getUser "u1" "") : Call textCodec).after (envAnswer unauthorized)
        loggedIn).AuthToken = loggedIn.AuthToken ∧
      ((Call.op (Op.getUser "u1" "") : Call textCodec).after (envAnswer unauthorized)
        loggedIn).AuthType = loggedIn.AuthType ∧
      ((Call.op (Op.getUser "u1" "") : Call textCodec).after (envAnswer unauthorized)
        loggedIn).Url = loggedIn.Url ∧
      ((Call.op (Op.getUser "u1" "") : Call textCodec).after (envAnswer unauthorized)
        loggedIn).ApiUrl = loggedIn.ApiUrl :=
  C10_other_calls_keep_client (envAnswer unauthorized) loggedIn (Call.op (Op.getUser "u1" ""))
    rfl rfl

/-! ## Routes on identifiers without a percent sign -/

theorem doPrintf_literal (E : Env) (a : List Arg) (pre rest : List Char) (argNum : Nat)
    (h : '%' ∉ pre) : doPrintf E a (pre ++ rest) argNum = pre ++ doPrintf E a rest argNum := by
  induction pre with
  | nil => rfl
  | cons c cs ih =>
    have hc : c ≠ '%' := fun he => h (by rw [he]; exact List.mem_cons_self _ _)
    have hcs : '%' ∉ cs := fun hm => h (List.mem_cons_of_mem _ hm)
    rw [List.cons_append, doPrintf.eq_def]
    simp only [if_neg hc, ih hcs, List.cons_append]

theorem Sprintf_literal_v (E : Env) (format : String) (pre : List Char) (s : String)
    (hf : format.data = pre ++ ['%', 'v']) (h : '%' ∉ pre) :
    Sprintf E format [.str s] = String.mk (pre ++ s.data) := by
  unfold Sprintf
  rw [hf, doPrintf_literal E _ pre _ 0 h]
  simp [doPrintf, startsComplex, printArg, extraArgs]

theorem GetTeamRoute_of_no_percent (E : Env) (teamId : String) :
    GetTeamRoute E teamId = "/teams/" ++ teamId := by
  unfold GetTeamRoute
  rw [Sprintf_literal_v E (GetTeamsRoute E ++ "/%v") "/teams/".data teamId rfl (by decide)]
  rfl

/-- On a team id without a percent sign the member route is the team route, `/members/` and
the user id. -/
theorem GetTeamMemberRoute_of_no_percent (E : Env) (teamId userId : String)
    (h : '%' ∉ teamId.data) :
    GetTeamMemberRoute E teamId userId = GetTeamRoute E teamId ++ "/members/" ++ userId ∧
      GetTeamMemberRoute E teamId userId = "/teams/" ++ teamId ++ "/members/" ++ userId := by
  have hpre : '%' ∉ "/teams/".data ++ teamId.data ++ "/members/".data := by
    intro hm
    rcases List.mem_append.mp hm with hm | hm
    · rcases List.mem_append.mp hm with hm | hm
      · exact absurd hm (by decide)
      · exact h hm
    · exact absurd hm (by decide)
  have key : GetTeamMemberRoute E teamId userId = "/teams/" ++ teamId ++ "/members/" ++ userId := by
    unfold GetTeamMemberRoute
    rw [GetTeamRoute_of_no_percent,
      Sprintf_literal_v E ("/teams/" ++ teamId ++ "/members/%v")
        ("/teams/".data ++ teamId.data ++ "/members/".data) userId
        (by simp [String.data_append]) hpre]
    apply String.ext
    simp [String.data_append]
  exact ⟨by rw [key, GetTeamRoute_of_no_percent], key⟩

/-! ## Further lemmas on the request and on the session state -/

/-- The conditional-cache values of the request built by the executor. -/
theorem buildRequest_etag_values (E : Env) (c : Client4) (method url data etag : String)
    (rq : Request) (hrq : buildRequest E c method url data etag = .ok rq) :
    rq.Header.Values HEADER_ETAG_CLIENT = if etag = "" then [] else [etag] := by
  have hk : CanonicalMIMEHeaderKey HEADER_ETAG_CLIENT ≠ CanonicalMIMEHeaderKey HEADER_AUTH := by
    decide
  unfold buildRequest at hrq
  by_cases hok : E.NewRequestOk method (c.ApiUrl ++ url) = true
  · rw [if_pos hok] at hrq
    injection hrq with hrq
    subst hrq
    by_cases he : etag = "" <;> by_cases ht : c.AuthToken.length > 0 <;>
      simp [he, ht, (length_pos_iff_ne_empty etag), Header.Values, Header.Set, hk, hk.symm]
  · rw [if_neg hok] at hrq
    cases hrq

/-- The value `Get` returns is the first of the values under the key. -/
theorem Header.Get_eq_head (h : Header) (key : String) :
    Header.Get h key = (Header.Values h key).headD "" := by
  unfold Header.Get Header.Values
  induction h with
  | nil => rfl
  | cons p ps ih =>
    by_cases hp : p.1 = CanonicalMIMEHeaderKey key
    · simp [List.find?, List.filter, hp]
    · simpa [List.find?, List.filter, hp] using ih

/-- The three ways an operation can leave the client. -/
theorem Op.run_snd_cases {J : Codec} (E : Env) (c : Client4) (op : Op J) :
    (op.run E c).2 = c ∨
    (∃ r : HttpResponse, (op.run E c).2 =
      { c with AuthToken := r.Header.Get HEADER_TOKEN, AuthType := HEADER_BEARER }) ∨
    (op.run E c).2 = { c with AuthToken := "", AuthType := HEADER_BEARER } := by
  rw [Op.run_eq_finish]
  generalize DoApiRequest E J c op.method (op.url E) op.data op.etag = res
  rcases res with f | ⟨_ | r, _ | err⟩
  · exact Or.inl rfl
  · by_cases h : op.isLogout = true
    · exact Or.inr (Or.inr (by simp [Op.finish, h]))
    · exact Or.inl (by simp [Op.finish, h])
  · exact Or.inl rfl
  · by_cases h1 : op.isLogin = true
    · exact Or.inr (Or.inl ⟨r, by simp [Op.finish, Op.onSuccess, h1]⟩)
    · by_cases h2 : op.isLogout = true
      · exact Or.inr (Or.inr (by simp [Op.finish, Op.onSuccess, h1, h2]))
      · exact Or.inl (by simp [Op.finish, Op.onSuccess, h1, h2])
  · exact Or.inl rfl

/-- One call keeps the link between credential and kind. -/
theorem Call.after_keeps_kind {J : Codec} (E : Env) (c : Client4) (call : Call J)
    (h : c.AuthToken ≠ "" → c.AuthType = HEADER_BEARER ∨ c.AuthType = HEADER_TOKEN) :
    (call.after E c).AuthToken ≠ "" →
      (call.after E c).AuthType = HEADER_BEARER ∨ (call.after E c).AuthType = HEADER_TOKEN := by
  cases call with
  | op o =>
    simp only [Call.after]
    rcases Op.run_snd_cases E c o with h1 | ⟨r, h1⟩ | h1 <;> rw [h1]
    · exact h
    · exact fun _ => Or.inl rfl
    · exact fun _ => Or.inl rfl
  | setOAuthToken token => exact fun _ => Or.inr rfl
  | clearOAuthToken => exact fun _ => Or.inl rfl
  | _ => exact h

theorem runCalls_keeps_kind {J : Codec} (calls : List (Env × Call J)) (c : Client4)
    (h : c.AuthToken ≠ "" → c.AuthType = HEADER_BEARER ∨ c.AuthType = HEADER_TOKEN) :
    (runCalls c calls).AuthToken ≠ "" →
      (runCalls c calls).AuthType = HEADER_BEARER ∨ (runCalls c calls).AuthType = HEADER_TOKEN := by
  induction calls generalizing c with
  | nil => exact h
  | cons step rest ih => exact ih _ (Call.after_keeps_kind step.1 c step.2 h)

/-! ## Claims, continued -/

/-- C11: evaluation at a team id that holds a format verb. The team route is put into the format
string of `fmt.Sprintf`, so the verb in the id consumes the user id and the verb of the suffix
finds no operand: the member route is not the team route followed by `/members/` and the user
id. -/
theorem C11_member_route_with_percent_id :
    GetTeamRoute envDown "%v" = "/teams/%v" ∧
    GetTeamMemberRoute envDown "%v" "u1" = "/teams/u1/members/%!v(MISSING)" ∧
    GetTeamMemberRoute envDown "%v" "u1" ≠ GetTeamRoute envDown "%v" ++ "/members/" ++ "u1" ∧
    GetTeamMemberRoute envDown "%v" "u1" ≠ "/teams/" ++ "%v" ++ "/members/" ++ "u1" :=
  ⟨rfl, rfl, by decide, by decide⟩

/-- C12: the request built by `DoApiRequest` carries the client-side conditional-cache header
exactly when the conditional token is non-empty, and then its one value is the token unchanged;
`DoApiPost`, `DoApiPut` and `DoApiDelete` call the executor with the empty token, so the requests
issued through them never carry the header. -/
theorem C12_conditional_header_iff_token (E : Env) (c : Client4)
    (method url data etag : String) (rq : Request)
    (hrq : buildRequest E c method url data etag = .ok rq) :
    (rq.Header.Values HEADER_ETAG_CLIENT ≠ [] ↔ etag ≠ "") ∧
    (etag ≠ "" → rq.Header.Values HEADER_ETAG_CLIENT = [etag] ∧
      rq.Header.Get HEADER_ETAG_CLIENT = etag) ∧
    (∀ (J : Codec) (url1 data1 : String),
      DoApiPost E J c url1 data1 = DoApiRequest E J c "POST" url1 data1 "" ∧
      DoApiPut E J c url1 data1 = DoApiRequest E J c "PUT" url1 data1 "" ∧
      DoApiDelete E J c url1 data1 = DoApiRequest E J c "DELETE" url1 "" "") ∧
    (∀ (method1 url1 data1 : String) (rq1 : Request),
      buildRequest E c method1 url1 data1 "" = .ok rq1 →
      rq1.Header.Values HEADER_ETAG_CLIENT = []) := by
  have hv := buildRequest_etag_values E c method url data etag rq hrq
  refine ⟨?_, ?_, fun _ _ _ => ⟨rfl, rfl, rfl⟩, ?_⟩
  · by_cases he : etag = "" <;> simp [hv, he]
  · intro he
    rw [if_neg he] at hv
    refine ⟨hv, ?_⟩
    rw [Header.Get_eq_head, hv]
    rfl
  · intro method1 url1 data1 rq1 hrq1
    have hv1 := buildRequest_etag_values E c method1 url1 data1 "" rq1 hrq1
    simpa using hv1

theorem C12_witness :
    (Header.Values [("If-None-Match", "e1"), ("Authorization", "Bearer tok")] HEADER_ETAG_CLIENT
        ≠ [] ↔ "e1" ≠ "") ∧
    ("e1" ≠ "" →
      Header.Values [("If-None-Match", "e1"), ("Authorization", "Bearer tok")] HEADER_ETAG_CLIENT
        = ["e1"] ∧
      Header.Get [("If-None-Match", "e1"), ("Authorization", "Bearer tok")] HEADER_ETAG_CLIENT
        = "e1") ∧
    (∀ (J : Codec) (url1 data1 : String),
      DoApiPost envDown J loggedIn url1 data1 = DoApiRequest envDown J loggedIn "POST" url1 data1 ""
      ∧ DoApiPut envDown J loggedIn url1 data1 = DoApiRequest envDown J loggedIn "PUT" url1 data1 ""
      ∧ DoApiDelete envDown J loggedIn url1 data1 =
        DoApiRequest envDown J loggedIn "DELETE" url1 "" "") ∧
    (∀ (method1 url1 data1 : String) (rq1 : Request),
      buildRequest envDown loggedIn method1 url1 data1 "" = .ok rq1 →
      rq1.Header.Values HEADER_ETAG_CLIENT = []) :=
  C12_conditional_header_iff_token envDown loggedIn "GET" "/users/u1" "" "e1"
    ⟨"GET", "http://localhost:8065/api/v4/users/u1", "",
      [("If-None-Match", "e1"), ("Authorization", "Bearer tok")], true⟩
    rfl

/-- C13: a failed login is atomic on the session state: for every client state and every login
call (`Login`, `LoginById`, `LoginByLdap`, `LoginWithDevice`) whose response status is 300 or
more and not 304, `AuthToken` and `AuthType` after the call equal their values before it. -/
theorem C13_failed_login_keeps_session {J : Codec} (E : Env) (c : Client4) (op : Op J)
    (rq : Request) (r : HttpResponse) (hop : op.isLogin = true)
    (hrq : op.request E c = .ok rq) (hdo : E.Do rq = .ok r)
    (h300 : 300 ≤ r.StatusCode) (h304 : r.StatusCode ≠ 304) :
    (op.run E c).2.AuthToken = c.AuthToken ∧ (op.run E c).2.AuthType = c.AuthType ∧
      (op.run E c).2 = c ∧
      (op.run E c).1 = .ok (.user none,
        { StatusCode := r.StatusCode, Error := some (J.AppErrorFromJson r.Body) }) := by
  have hrun := Op.run_of_error_status E c op rq r hrq hdo h300 h304
  have hz : op.zero = .user none := by
    cases op <;> first | rfl | simp [Op.isLogin] at hop
  rw [hrun, hz]
  exact ⟨rfl, rfl, rfl, rfl⟩

theorem C13_witness :
    (300 ≤ unauthorized.StatusCode ∧ unauthorized.StatusCode ≠ 304) ∧
    ((Op.loginByLdap "a@b.com" "wrong" : Op textCodec).run (envAnswer unauthorized)
        loggedIn).2.AuthToken = loggedIn.AuthToken ∧
    ((Op.loginByLdap "a@b.com" "wrong" : Op textCodec).run (envAnswer unauthorized)
        loggedIn).2.AuthType = loggedIn.AuthType ∧
    ((Op.loginByLdap "a@b.com" "wrong" : Op textCodec).run (envAnswer unauthorized)
        loggedIn).2 = loggedIn ∧
    ((Op.loginByLdap "a@b.com" "wrong" : Op textCodec).run (envAnswer unauthorized)
        loggedIn).1 = .ok (.user none,
          { StatusCode := unauthorized.StatusCode,
            Error := some (textCodec.AppErrorFromJson unauthorized.Body) }) :=
  ⟨by decide,
    C13_failed_login_keeps_session (envAnswer unauthorized) loggedIn
      (Op.loginByLdap "a@b.com" "wrong")
      ⟨"POST", "http://localhost:8065/api/v4/users/login",
        "login_id=a@b.com,password=wrong,ldap_only=true", [("Authorization", "Bearer tok")], true⟩
      unauthorized rfl rfl rfl (by decide) (by decide)⟩

/-- C14: in every client state reached from `NewAPIv4Client` by any sequence of exported methods
(logins, `Logout`, `SetOAuthToken`, `ClearOAuthToken`, the resource operations, the route
builders and the executor, with arbitrary answers of the server), a non-empty `AuthToken` comes
with a non-empty `AuthType` that is the bearer kind or the OAuth token kind; hence every
authorization header a request carries has a non-empty kind before the space and the
credential. -/
theorem C14_credential_always_has_kind {J : Codec} (url : String)
    (calls : List (Env × Call J)) :
    ((runCalls (NewAPIv4Client url) calls).AuthToken ≠ "" →
      (runCalls (NewAPIv4Client url) calls).AuthType ≠ "" ∧
      ((runCalls (NewAPIv4Client url) calls).AuthType = HEADER_BEARER ∨
        (runCalls (NewAPIv4Client url) calls).AuthType = HEADER_TOKEN)) ∧
    ∀ (E : Env) (method url1 data etag : String) (rq : Request),
      buildRequest E (runCalls (NewAPIv4Client url) calls) method url1 data etag = .ok rq →
      ∀ v ∈ rq.Header.Values HEADER_AUTH,
        (runCalls (NewAPIv4Client url) calls).AuthType ≠ "" ∧
        v = (runCalls (NewAPIv4Client url) calls).AuthType ++ " " ++
          (runCalls (NewAPIv4Client url) calls).AuthToken := by
  have hkind := runCalls_keeps_kind calls (NewAPIv4Client url) (fun h => absurd rfl h)
  have hne : (runCalls (NewAPIv4Client url) calls).AuthToken ≠ "" →
      (runCalls (NewAPIv4Client url) calls).AuthType ≠ "" := by
    intro ht
    rcases hkind ht with h | h <;> rw [h] <;> decide
  refine ⟨fun ht => ⟨hne ht, hkind ht⟩, ?_⟩
  intro E method url1 data etag rq hrq v hv
  rw [buildRequest_auth_values E _ method url1 data etag rq hrq] at hv
  by_cases ht : (runCalls (NewAPIv4Client url) calls).AuthToken = ""
  · rw [if_pos ht] at hv
    cases hv
  · rw [if_neg ht] at hv
    exact ⟨hne ht, List.mem_singleton.mp hv⟩

theorem C14_witness :
    (runCalls (NewAPIv4Client "http://localhost:8065")
        [(envAnswer loginOk, (Call.op (Op.login "a@b.com" "Password1") : Call textCodec)),
          (envDown, Call.op (Op.getUser "u1" "")),
          (envAnswer unauthorized, Call.op Op.logout)]).AuthToken = "s3cr3t" ∧
    (runCalls (NewAPIv4Client "http://localhost:8065")
        [(envAnswer loginOk, (Call.op (Op.login "a@b.com" "Password1") : Call textCodec)),
          (envDown, Call.op (Op.getUser "u1" "")),
          (envAnswer unauthorized, Call.op Op.logout)]).AuthType ≠ "" ∧
    ((runCalls (NewAPIv4Client "http://localhost:8065")
        [(envAnswer loginOk, (Call.op (Op.login "a@b.com" "Password1") : Call textCodec)),
          (envDown, Call.op (Op.getUser "u1" "")),
          (envAnswer unauthorized, Call.op Op.logout)]).AuthType = HEADER_BEARER ∨
      (runCalls (NewAPIv4Client "http://localhost:8065")
        [(envAnswer loginOk, (Call.op (Op.login "a@b.com" "Password1") : Call textCodec)),
          (envDown, Call.op (Op.getUser "u1" "")),
          (envAnswer unauthorized, Call.op Op.logout)]).AuthType = HEADER_TOKEN) :=
  ⟨rfl,
    (C14_credential_always_has_kind "http://localhost:8065"
      [(envAnswer loginOk, (Call.op (Op.login "a@b.com" "Password1") : Call textCodec)),
        (envDown, Call.op (Op.getUser "u1" "")),
        (envAnswer unauthorized, Call.op Op.logout)]).1 (by decide)⟩

/-- C15: on the application-error branch (status 300 or more and not 304) the metadata returned
by every resource operation has empty `RequestId`, `Etag` and `ServerVersion`, whatever headers
the response carried: only `StatusCode` and `Error` are populated; on the success and 304
branches the three fields equal the corresponding response headers. -/
theorem C15_error_metadata_drops_headers {J : Codec} (E : Env) (c : Client4) (op : Op J)
    (rq : Request) (r : HttpResponse) (hrq : op.request E c = .ok rq) (hdo : E.Do rq = .ok r) :
    ((300 ≤ r.StatusCode ∧ r.StatusCode ≠ 304) →
      ∃ v resp, (op.run E c).1 = .ok (v, resp) ∧
        resp.RequestId = "" ∧ resp.Etag = "" ∧ resp.ServerVersion = "" ∧
        resp.StatusCode = r.StatusCode ∧ resp.Error = some (J.AppErrorFromJson r.Body)) ∧
    ((r.StatusCode < 300 ∨ r.StatusCode = 304) →
      ∃ v resp, (op.run E c).1 = .ok (v, resp) ∧
        resp.RequestId = r.Header.Get HEADER_REQUEST_ID ∧
        resp.Etag = r.Header.Get HEADER_ETAG_SERVER ∧
        resp.ServerVersion = r.Header.Get HEADER_VERSION_ID ∧
        resp.StatusCode = r.StatusCode ∧ resp.Error = none) := by
  constructor
  · rintro ⟨h300, h304⟩
    refine ⟨op.zero, { StatusCode := r.StatusCode, Error := some (J.AppErrorFromJson r.Body) },
      ?_, rfl, rfl, rfl, rfl, rfl⟩
    rw [Op.run_of_error_status E c op rq r hrq hdo h300 h304]
  · intro h
    refine ⟨op.decode r, BuildResponse r, ?_, rfl, rfl, rfl, rfl, rfl⟩
    rw [Op.run_of_no_error E c op rq r hrq hdo h]

theorem C15_witness :
    (notFound.Header.Get HEADER_REQUEST_ID = "r1" ∧
      notFound.Header.Get HEADER_VERSION_ID = "3.6.0") ∧
    ∃ v resp, ((Op.getTeam "t1" "" : Op textCodec).run (envAnswer notFound) loggedIn).1 =
        .ok (v, resp) ∧
      resp.RequestId = "" ∧ resp.Etag = "" ∧ resp.ServerVersion = "" ∧
      resp.StatusCode = notFound.StatusCode ∧
      resp.Error = some (textCodec.AppErrorFromJson notFound.Body) :=
  ⟨by decide,
    (C15_error_metadata_drops_headers (envAnswer notFound) loggedIn (Op.getTeam "t1" "")
      ⟨"GET", "http://localhost:8065/api/v4/teams/t1", "", [("Authorization", "Bearer tok")], true⟩
      notFound rfl rfl).1 (by decide)⟩

end Model
